import Mathlib

/-!
Verification of the Sakila rental-store REST server (`src/server.js`).

The server is a thin HTTP layer over SQL: each endpoint runs one or a few
parameterized queries against the relational tables and maps outcomes to
HTTP status codes.  We embed the relational tables as lists of records and
each endpoint handler as a pure function from a database value (plus the
request inputs) to a status code, an optional response payload, and - for
mutations - the updated database.  SQL `NULL` is `Option.none`; timestamps
are abstract `Nat` ticks supplied to writing handlers as a `now` argument.
Database errors (the 500 paths in the source) cannot occur in the pure
embedding, so every handler is total.
-/

/-- Rows of the `language` table (named `Lang` because Mathlib already
declares `Language`). -/
structure Lang where
  language_id : Nat
  name : String
deriving Repr, DecidableEq

/-- Rows of the `film` table (the columns the server reads). -/
structure Film where
  film_id : Nat
  title : String
  description : String
  release_year : Nat
  rating : String
  rental_rate : Nat
  rental_duration : Nat
  length : Nat
  replacement_cost : Nat
  special_features : String
  language_id : Nat
deriving Repr, DecidableEq

/-- Rows of the `actor` table. -/
structure Actor where
  actor_id : Nat
  first_name : String
  last_name : String
deriving Repr, DecidableEq

/-- Rows of the `category` table. -/
structure Category where
  category_id : Nat
  name : String
deriving Repr, DecidableEq

/-- Rows of the `film_actor` join table. -/
structure FilmActor where
  actor_id : Nat
  film_id : Nat
deriving Repr, DecidableEq

/-- Rows of the `film_category` join table. -/
structure FilmCategory where
  film_id : Nat
  category_id : Nat
deriving Repr, DecidableEq

/-- Rows of the `inventory` table. -/
structure Inventory where
  inventory_id : Nat
  film_id : Nat
  store_id : Nat
deriving Repr, DecidableEq

/-- Rows of the `store` table. -/
structure Store where
  store_id : Nat
  manager_staff_id : Nat
deriving Repr, DecidableEq

/-- Rows of the `customer` table (the columns the server reads or writes). -/
structure Customer where
  customer_id : Nat
  store_id : Nat
  first_name : String
  last_name : String
  email : String
  address_id : Nat
  active : Nat
  create_date : Nat
  last_update : Nat
deriving Repr, DecidableEq

/-- Rows of the `rental` table.  `return_date = none` is SQL `NULL`,
i.e. an open rental. -/
structure Rental where
  rental_id : Nat
  rental_date : Nat
  inventory_id : Nat
  customer_id : Nat
  staff_id : Nat
  return_date : Option Nat
  last_update : Nat
deriving Repr, DecidableEq

/-- The relational database the server queries: one list of rows per table. -/
structure DB where
  languages : List Lang
  films : List Film
  actors : List Actor
  categories : List Category
  film_actors : List FilmActor
  film_categories : List FilmCategory
  inventory : List Inventory
  stores : List Store
  customers : List Customer
  rentals : List Rental
deriving Repr, DecidableEq

/-! ### JavaScript truthiness of request fields

The handlers guard required inputs with `if (!x)`, which rejects both a
missing field and the falsy values `''` and `0`. -/

/-- JS truthiness of an optional string request field: present and nonempty. -/
def truthyStr : Option String → Bool
  | none => false
  | some s => s ≠ ""

/-- JS truthiness of an optional numeric request field: present and nonzero. -/
def truthyNat : Option Nat → Bool
  | none => false
  | some n => n ≠ 0

/-- JS `x || d` for an optional numeric field: a missing or zero (falsy)
value falls back to the default `d`.  Used for `store_id || 1`,
`parseInt(req.query.page) || 1` and `parseInt(req.query.limit) || 10`. -/
def orDefault (x : Option Nat) (d : Nat) : Nat :=
  match x with
  | none => d
  | some n => if n = 0 then d else n

/-- JS `parseInt` restricted to the forms the server meets: parse a leading
run of decimal digits, `none` (NaN) when the string does not start with a
digit.  A NaN SQL parameter matches no row. -/
def parseIntNat (s : String) : Option Nat :=
  let ds := s.data.takeWhile (fun c => c.isDigit)
  if ds.isEmpty then none
  else some (ds.foldl (fun n c => n * 10 + (c.toNat - 48)) 0)

/-! ### SQL `LIKE`

MySQL string comparison under the default collation is case-insensitive;
`%` matches any run of characters, `_` any single character, and the
default escape character `\\` makes the following pattern character match
literally.  The server always interpolates the user's query as
`'%' ++ q ++ '%'`. -/

/-- Case-insensitive character comparison (default MySQL collation). -/
def charEqCI (a b : Char) : Bool :=
  a.toLower == b.toLower

/-- SQL `LIKE` pattern matching over character lists: the first argument is
the pattern (`%` and `_` are wildcards; the default escape `\\` makes the
next pattern character match literally, and a trailing lone `\\` stands
for itself, falling through to the literal-character arm), the second the
subject. -/
def likeMatch : List Char → List Char → Bool
  | [], s => s.isEmpty
  | '\\' :: p2 :: ps2, s =>
    match s with
    | [] => false
    | c :: cs => charEqCI p2 c && likeMatch ps2 cs
  | p1 :: ps, s =>
    if p1 = '%' then s.tails.any (fun t => likeMatch ps t)
    else
      match s with
      | [] => false
      | c :: cs => (if p1 = '_' then true else charEqCI p1 c) && likeMatch ps cs

/-- `s LIKE pat` on strings. -/
def likeStr (s pat : String) : Bool :=
  likeMatch pat.data s.data

/-- The pattern the server builds around every search term. -/
def likeWrap (q : String) : String :=
  "%" ++ q ++ "%"

/-! ### Left-join combinators

The SQL `LEFT JOIN` patterns of the server, over embedded row lists. -/

/-- `xs LEFT JOIN f`: every `x` is kept; when `f x` is empty it is paired
with `NULL`, otherwise with each matching row. -/
def ljoin (xs : List α) (f : α → List β) : List (α × Option β) :=
  xs.flatMap (fun x =>
    if (f x).isEmpty then [(x, none)] else (f x).map (fun y => (x, some y)))

/-- A chain of two left joins hanging off a single fixed left row (as in
`film LEFT JOIN fc LEFT JOIN c`): when `xs` is empty a single all-`NULL`
row remains, otherwise each `x` is left-joined with `f x`. -/
def leftChain (xs : List α) (f : α → List β) : List (Option α × Option β) :=
  if xs.isEmpty then [(none, none)]
  else (ljoin xs f).map (fun p => (some p.1, p.2))

/-- Single left join hanging off a fixed left row (as in
`film LEFT JOIN language`). -/
def lj1 (xs : List α) : List (Option α) :=
  if xs.isEmpty then [none] else xs.map some

/-- `COUNT(DISTINCT e)` over the non-`NULL` values `l`. -/
def distinctCount [DecidableEq α] (l : List α) : Nat :=
  l.dedup.length

/-! ### Case-insensitive substring occurrence (specification side)

`occursCI q s` renders the spec's phrase "`s` contains `q` as a
case-insensitive substring". -/

/-- Case-insensitive prefix test: the pattern heads the subject. -/
def leadsCI : List Char → List Char → Bool
  | [], _ => true
  | _ :: _, [] => false
  | p :: ps, c :: cs => charEqCI p c && leadsCI ps cs

/-- Case-insensitive substring test: the pattern heads some suffix. -/
def hasSubCI (q : List Char) : List Char → Bool
  | [] => leadsCI q []
  | c :: cs => leadsCI q (c :: cs) || hasSubCI q cs

/-- `q` occurs in `s` up to character case: some suffix of `s` starts
with `q` modulo `Char.toLower`. -/
def occursCI (q s : String) : Prop :=
  ∃ i, ((s.data.drop i).take q.data.length).map Char.toLower
        = q.data.map Char.toLower

/-! ## GET /api/film/:id  (server.js lines 54-98)

One query: `film` left-joined with `language`, `film_category`/`category`,
`film_actor`/`actor` and `inventory`/`rental`, filtered on `film_id` and
grouped by the film columns plus `l.name`.  All aggregates are
`COUNT(DISTINCT _)` or `GROUP_CONCAT(DISTINCT _)`, so they ignore the
multiplicity each join dimension contributes; the grouping collapses to a
single result row exactly as the embedded computation below does. -/

/-- The `LEFT JOIN film_category LEFT JOIN category` dimension for a film. -/
def filmCatOpts (db : DB) (fid : Nat) : List (Option FilmCategory × Option Category) :=
  leftChain (db.film_categories.filter (fun fc => fc.film_id == fid))
    (fun fc => db.categories.filter (fun c => c.category_id == fc.category_id))

/-- The `LEFT JOIN film_actor LEFT JOIN actor` dimension for a film. -/
def filmActorOpts (db : DB) (fid : Nat) : List (Option FilmActor × Option Actor) :=
  leftChain (db.film_actors.filter (fun fa => fa.film_id == fid))
    (fun fa => db.actors.filter (fun a => a.actor_id == fa.actor_id))

/-- The `LEFT JOIN inventory LEFT JOIN rental` dimension for a film. -/
def filmInvRentOpts (db : DB) (fid : Nat) : List (Option Inventory × Option Rental) :=
  leftChain (db.inventory.filter (fun i => i.film_id == fid))
    (fun i => db.rentals.filter (fun r => r.inventory_id == i.inventory_id))

/-- The cross product of the three join dimensions: the rows of the film
detail query belonging to one film. -/
def filmJoinRows (db : DB) (fid : Nat) :
    List ((Option FilmCategory × Option Category) ×
          ((Option FilmActor × Option Actor) × (Option Inventory × Option Rental))) :=
  (filmCatOpts db fid).product ((filmActorOpts db fid).product (filmInvRentOpts db fid))

/-- Response body of `GET /api/film/:id`. -/
structure FilmDetails where
  film : Film
  language : Option String
  categories : List String
  actors : List String
  rental_count : Nat
  total_copies : Nat
  currently_rented : Nat
deriving Repr, DecidableEq

/-- Handler of `GET /api/film/:id`: 404 when no film row matches, otherwise
the single grouped row with its distinct-count aggregates. -/
def getFilm (db : DB) (fid : Nat) : Nat × Option FilmDetails :=
  match db.films.find? (fun f => f.film_id == fid) with
  | none => (404, none)
  | some f =>
    let rows := filmJoinRows db fid
    (200, some {
      film := f
      language := (db.languages.find? (fun l => l.language_id == f.language_id)).map
        (fun l => l.name)
      categories := ((rows.filterMap (fun row => row.1.2.map (fun c => c.name))).dedup).mergeSort
        (fun a b => decide (a ≤ b))
      actors := (((rows.filterMap (fun row => row.2.1.2)).dedup.mergeSort
          (fun a b => decide (a.last_name ≤ b.last_name))).map
          (fun a => a.first_name ++ " " ++ a.last_name)).dedup
      rental_count := distinctCount (rows.filterMap (fun row => row.2.2.2.map (fun r => r.rental_id)))
      total_copies := distinctCount (rows.filterMap (fun row => row.2.2.1.map (fun i => i.inventory_id)))
      currently_rented := distinctCount (rows.filterMap (fun row =>
        row.2.2.2.bind (fun r => if r.return_date.isNone then some r.rental_id else none))) })

/-! ## GET /api/actor/:id  (server.js lines 126-190)

First query: `actor` inner-joined with `film_actor`, `film`, `inventory`
and left-joined with `rental`; an empty result yields 404.  Second query:
the actor's films inner-joined down to `rental`, grouped per film, sorted
by rental count descending, first five kept. -/

/-- Rows of the actor aggregate query. -/
def actorJoinRows (db : DB) (aid : Nat) :
    List ((Actor × FilmActor × Film × Inventory) × Option Rental) :=
  ljoin ((db.actors.filter (fun a => a.actor_id == aid)).flatMap (fun a =>
      (db.film_actors.filter (fun fa => fa.actor_id == a.actor_id)).flatMap (fun fa =>
        (db.films.filter (fun f => f.film_id == fa.film_id)).flatMap (fun f =>
          (db.inventory.filter (fun i => i.film_id == f.film_id)).map (fun i => (a, fa, f, i))))))
    (fun q => db.rentals.filter (fun r => r.inventory_id == q.2.2.2.inventory_id))

/-- Rows of the actor's top-films query (all joins inner). -/
def actorTopFilmRows (db : DB) (aid : Nat) : List (Film × Rental) :=
  (db.actors.filter (fun a => a.actor_id == aid)).flatMap (fun a =>
    (db.film_actors.filter (fun fa => fa.actor_id == a.actor_id)).flatMap (fun fa =>
      (db.films.filter (fun f => f.film_id == fa.film_id)).flatMap (fun f =>
        (db.inventory.filter (fun i => i.film_id == f.film_id)).flatMap (fun i =>
          (db.rentals.filter (fun r => r.inventory_id == i.inventory_id)).map (fun r => (f, r))))))

/-- The actor's five most rented films with their per-group rental counts. -/
def actorTopFilms (db : DB) (aid : Nat) : List (Film × Nat) :=
  let rows := actorTopFilmRows db aid
  (((rows.map (fun p => p.1)).dedup.map
      (fun f => (f, rows.countP (fun p => p.1 == f)))).mergeSort
    (fun a b => decide (b.2 ≤ a.2))).take 5

/-- Response body of `GET /api/actor/:id`. -/
structure ActorDetails where
  actor : Actor
  total_films : Nat
  total_rentals : Nat
  topFilms : List (Film × Nat)
deriving Repr, DecidableEq

/-- Handler of `GET /api/actor/:id`: 404 when the aggregate query returns
no row (note the inner joins: an actor with no film in inventory is
reported missing), otherwise the aggregates plus the top-films list. -/
def getActor (db : DB) (aid : Nat) : Nat × Option ActorDetails :=
  match (actorJoinRows db aid).head? with
  | none => (404, none)
  | some row0 =>
    let rows := actorJoinRows db aid
    (200, some {
      actor := row0.1.1
      total_films := distinctCount (rows.map (fun q => q.1.2.2.1.film_id))
      total_rentals := distinctCount (rows.filterMap (fun q => q.2.map (fun r => r.rental_id)))
      topFilms := actorTopFilms db aid })

/-! ## GET /api/search-films  (server.js lines 192-281)

Dispatch on `type` to one of three query shapes; each selects the matching
films (grouped by the film columns) with `COUNT(r.rental_id)` over the
left-joined inventory/rental rows, ordered by title. -/

/-- Matching `(fc, c)` pairs of the genre search for one film:
`JOIN film_category JOIN category` with `c.name LIKE '%q%'`. -/
def genreCatPairs (db : DB) (q : String) (fid : Nat) : List (FilmCategory × Category) :=
  (db.film_categories.filter (fun fc => fc.film_id == fid)).flatMap (fun fc =>
    (db.categories.filter (fun c =>
      c.category_id == fc.category_id && likeStr c.name (likeWrap q))).map (fun c => (fc, c)))

/-- Matching `(fa, a)` pairs of the actor search for one film:
`JOIN film_actor JOIN actor` with the concatenated name matching. -/
def actorNamePairs (db : DB) (q : String) (fid : Nat) : List (FilmActor × Actor) :=
  (db.film_actors.filter (fun fa => fa.film_id == fid)).flatMap (fun fa =>
    (db.actors.filter (fun a =>
      a.actor_id == fa.actor_id &&
      likeStr (a.first_name ++ " " ++ a.last_name) (likeWrap q))).map (fun a => (fa, a)))

/-- `COUNT(r.rental_id)` contribution of one occurrence of a film in the
search queries: non-`NULL` rentals among its left-joined inventory rows. -/
def filmRentalTally (db : DB) (fid : Nat) : Nat :=
  (filmInvRentOpts db fid).countP (fun p => p.2.isSome)

/-- Result rows of the title search: films whose title matches, one row per
distinct film tuple, with the grouped rental count. -/
def searchRowsTitle (db : DB) (q : String) : List (Film × Nat) :=
  let ms := db.films.filter (fun f => likeStr f.title (likeWrap q))
  (ms.dedup.map (fun f =>
    (f, ms.countP (fun g => g == f) * filmRentalTally db f.film_id))).mergeSort
    (fun a b => decide (a.1.title ≤ b.1.title))

/-- Result rows of the actor search. -/
def searchRowsActor (db : DB) (q : String) : List (Film × Nat) :=
  let ms := db.films.filter (fun f => !(actorNamePairs db q f.film_id).isEmpty)
  (ms.dedup.map (fun f =>
    (f, ms.countP (fun g => g == f) * ((actorNamePairs db q f.film_id).length
          * filmRentalTally db f.film_id)))).mergeSort
    (fun a b => decide (a.1.title ≤ b.1.title))

/-- Result rows of the genre search. -/
def searchRowsGenre (db : DB) (q : String) : List (Film × Nat) :=
  let ms := db.films.filter (fun f => !(genreCatPairs db q f.film_id).isEmpty)
  (ms.dedup.map (fun f =>
    (f, ms.countP (fun g => g == f) * ((genreCatPairs db q f.film_id).length
          * filmRentalTally db f.film_id)))).mergeSort
    (fun a b => decide (a.1.title ≤ b.1.title))

/-- Handler of `GET /api/search-films`: 400 when `query` or `type` is
falsy (absent or empty) or `type` is not one of the three discriminators,
otherwise the matching query shape. -/
def searchFilms (db : DB) (query type_ : Option String) : Nat × Option (List (Film × Nat)) :=
  match query, type_ with
  | some q, some t =>
    if q = "" ∨ t = "" then (400, none)
    else if t = "title" then (200, some (searchRowsTitle db q))
    else if t = "actor" then (200, some (searchRowsActor db q))
    else if t = "genre" then (200, some (searchRowsGenre db q))
    else (400, none)
  | _, _ => (400, none)

/-! ## GET /api/customers  (server.js lines 389-476)

Pagination with optional search.  `page`/`limit` go through
`parseInt(_) || default`; the search condition always includes
`active = 1`; a count query drives the pagination object and the row query
applies `ORDER BY last_name, first_name LIMIT ? OFFSET ?`. -/

/-- JS `x || d` for an optional string: missing or empty falls back. -/
def orDefaultStr (x : Option String) (d : String) : String :=
  match x with
  | none => d
  | some s => if s = "" then d else s

/-- The search branch of the customer-list `WHERE` condition, selected by
`type` (the `name` case is also the `switch` default). -/
def customerSearchBranch (search type_ : String) (c : Customer) : Bool :=
  if search.trim = "" then true
  else match type_ with
  | "id" =>
    match parseIntNat search.trim with
    | some n => c.customer_id == n
    | none => false
  | "first_name" => likeStr c.first_name (likeWrap search.trim)
  | "last_name" => likeStr c.last_name (likeWrap search.trim)
  | _ => likeStr c.first_name (likeWrap search.trim)
        || likeStr c.last_name (likeWrap search.trim)

/-- The `WHERE` condition of both customer-list queries: `active = 1`
plus the search branch selected by `type`. -/
def customerSearchPred (search type_ : String) (c : Customer) : Bool :=
  c.active == 1 && customerSearchBranch search type_ c

/-- `ORDER BY last_name, first_name` as a sort relation. -/
def customerOrd (a b : Customer) : Bool :=
  decide (a.last_name < b.last_name)
    || (a.last_name == b.last_name && decide (a.first_name ≤ b.first_name))

/-- Pagination block of the customer-list response. -/
structure Pagination where
  currentPage : Nat
  totalPages : Nat
  totalCustomers : Nat
  limit : Nat
  hasNext : Bool
  hasPrev : Bool
deriving Repr, DecidableEq

/-- Response body of `GET /api/customers`. -/
structure CustomersPage where
  customers : List Customer
  pagination : Pagination
deriving Repr, DecidableEq

/-- Handler of `GET /api/customers` (always 200 in the pure embedding). -/
def getCustomers (db : DB) (page_q limit_q : Option Nat)
    (search_q type_q : Option String) : CustomersPage :=
  let page := orDefault page_q 1
  let limit := orDefault limit_q 10
  let offset := (page - 1) * limit
  let search := orDefaultStr search_q ""
  let t := orDefaultStr type_q "name"
  let matched := db.customers.filter (customerSearchPred search t)
  let total := matched.length
  let totalPages := (total + limit - 1) / limit
  { customers := ((matched.mergeSort customerOrd).drop offset).take limit
    pagination := {
      currentPage := page
      totalPages := totalPages
      totalCustomers := total
      limit := limit
      hasNext := decide (page < totalPages)
      hasPrev := decide (page > 1) } }

/-! ## POST /api/customers  (server.js lines 478-521) -/

/-- Request body of the customer create/update endpoints. -/
structure CustomerReq where
  first_name : Option String
  last_name : Option String
  email : Option String
  store_id : Option Nat
deriving Repr, DecidableEq

/-- MySQL `AUTO_INCREMENT` `insertId`, modelled as one more than the
largest customer id in the table. -/
def nextCustomerId (db : DB) : Nat :=
  (db.customers.map (fun c => c.customer_id)).foldr max 0 + 1

/-- Handler of `POST /api/customers`: required-field check, then the
duplicate-email check `SELECT customer_id FROM customer WHERE email = ?`
(over all customers, active or not), then the insert with
`address_id = 1, active = 1`.  Returns (status, generated id, database). -/
def postCustomers (db : DB) (req : CustomerReq) (now : Nat) : Nat × Option Nat × DB :=
  match req.first_name, req.last_name, req.email with
  | some fn, some ln, some em =>
    if fn = "" ∨ ln = "" ∨ em = "" then (400, none, db)
    else if (db.customers.filter (fun c => c.email == em)).isEmpty then
      let cid := nextCustomerId db
      (200, some cid,
        { db with customers := db.customers ++
            [{ customer_id := cid
               store_id := orDefault req.store_id 1
               first_name := fn
               last_name := ln
               email := em
               address_id := 1
               active := 1
               create_date := now
               last_update := now }] })
    else (400, none, db)
  | _, _, _ => (400, none, db)

/-! ## PUT /api/customers/:id  (server.js lines 523-581) -/

/-- Handler of `PUT /api/customers/:id`: existence check, then the
duplicate-email check `WHERE email = ? AND customer_id != ?` which
excludes the customer being updated, then the update. -/
def putCustomer (db : DB) (cid : Nat) (req : CustomerReq) (now : Nat) : Nat × DB :=
  match req.first_name, req.last_name, req.email with
  | some fn, some ln, some em =>
    if fn = "" ∨ ln = "" ∨ em = "" then (400, db)
    else if (db.customers.filter (fun c => c.customer_id == cid)).isEmpty then (404, db)
    else if (db.customers.filter (fun c => c.email == em && c.customer_id != cid)).isEmpty
      then (200, { db with customers := db.customers.map (fun c =>
        if c.customer_id == cid then
          { c with first_name := fn
                   last_name := ln
                   email := em
                   store_id := orDefault req.store_id 1
                   last_update := now }
        else c) })
    else (400, db)
  | _, _, _ => (400, db)

/-! ## DELETE /api/customers/:id  (server.js lines 583-641) -/

/-- `SELECT COUNT(*) FROM rental JOIN inventory WHERE customer_id = ?
AND return_date IS NULL`: rows of the open-rental check, counting join
multiplicity exactly as `COUNT(*)` does. -/
def openRentalJoinCount (db : DB) (cid : Nat) : Nat :=
  ((db.rentals.filter (fun r => r.customer_id == cid && r.return_date.isNone)).flatMap
    (fun r => db.inventory.filter (fun i => i.inventory_id == r.inventory_id))).length

/-- Handler of `DELETE /api/customers/:id`: 404 unless an active customer
with the id exists, 400 when the open-rental count is positive, otherwise
the soft delete `SET active = 0`. -/
def deleteCustomer (db : DB) (cid : Nat) (now : Nat) : Nat × DB :=
  if (db.customers.filter (fun c => c.customer_id == cid && c.active == 1)).isEmpty then
    (404, db)
  else if 0 < openRentalJoinCount db cid then (400, db)
  else (200, { db with customers := db.customers.map (fun c =>
    if c.customer_id == cid then { c with active := 0, last_update := now } else c) })

/-! ## GET /api/customers/:id/details  (server.js lines 643-693) -/

/-- Rows of the customer-details query: the customer's rentals left-joined
with `inventory` and `film` (all-`NULL` row when the customer has no
rental). -/
def custJoinRows (db : DB) (cid : Nat) : List (Option Rental × Option Inventory × Option Film) :=
  let rs := db.rentals.filter (fun r => r.customer_id == cid)
  if rs.isEmpty then [(none, none, none)]
  else rs.flatMap (fun r =>
    let invs := db.inventory.filter (fun i => i.inventory_id == r.inventory_id)
    if invs.isEmpty then [(some r, none, none)]
    else invs.flatMap (fun i =>
      let fs := db.films.filter (fun f => f.film_id == i.film_id)
      if fs.isEmpty then [(some r, some i, none)]
      else fs.map (fun f => (some r, some i, some f))))

/-- Rows of the favourite-genre subquery: one occurrence of the category
name per full `category ... rental` join row of the customer. -/
def favGenreRows (db : DB) (cid : Nat) : List String :=
  db.categories.flatMap (fun c =>
    (db.film_categories.filter (fun fc => fc.category_id == c.category_id)).flatMap (fun fc =>
      (db.films.filter (fun f => f.film_id == fc.film_id)).flatMap (fun f =>
        (db.inventory.filter (fun i => i.film_id == f.film_id)).flatMap (fun i =>
          (db.rentals.filter (fun r =>
            r.inventory_id == i.inventory_id && r.customer_id == cid)).map
            (fun _ => c.name)))))

/-- `GROUP BY name ORDER BY COUNT(*) DESC LIMIT 1` of the favourite-genre
subquery (ties resolved by the stable sort, as MySQL leaves them free). -/
def favoriteGenre (db : DB) (cid : Nat) : Option String :=
  let rows := favGenreRows db cid
  (((rows.dedup.map (fun n => (n, rows.countP (fun m => m == n)))).mergeSort
      (fun a b => decide (b.2 ≤ a.2))).head?).map (fun p => p.1)

/-- Response body of `GET /api/customers/:id/details`. -/
structure CustomerDetails where
  customer : Customer
  total_rentals : Nat
  active_rentals : Nat
  total_spent : Nat
  favorite_genre : Option String
deriving Repr, DecidableEq

/-- Handler of `GET /api/customers/:id/details`: 404 when no customer row
matches, otherwise the grouped aggregates. -/
def getCustomerDetails (db : DB) (cid : Nat) : Nat × Option CustomerDetails :=
  match db.customers.find? (fun c => c.customer_id == cid) with
  | none => (404, none)
  | some c =>
    let rows := custJoinRows db cid
    (200, some {
      customer := c
      total_rentals := distinctCount (rows.filterMap (fun row =>
        row.1.map (fun r => r.rental_id)))
      active_rentals := distinctCount (rows.filterMap (fun row =>
        row.1.bind (fun r => if r.return_date.isNone then some r.rental_id else none)))
      total_spent := (rows.filterMap (fun row => row.2.2.map (fun f => f.rental_rate))).sum
      favorite_genre := favoriteGenre db cid })

/-! ## POST /api/rentals  (server.js lines 341-387) -/

/-- Request body of `POST /api/rentals`. -/
structure RentalReq where
  customer_id : Option Nat
  inventory_id : Option Nat
  staff_id : Option Nat
deriving Repr, DecidableEq

/-- MySQL `AUTO_INCREMENT` `insertId` for rentals. -/
def nextRentalId (db : DB) : Nat :=
  (db.rentals.map (fun r => r.rental_id)).foldr max 0 + 1

/-- The availability check of `POST /api/rentals`: the requested inventory
row left-joined with its open rentals, keeping only rows whose rental side
is `NULL`.  Empty exactly when the item is missing or currently rented. -/
def rentalAvailRows (db : DB) (inv : Nat) : List (Inventory × Option Rental) :=
  (ljoin (db.inventory.filter (fun i => i.inventory_id == inv))
    (fun i => db.rentals.filter (fun r =>
      r.inventory_id == i.inventory_id && r.return_date.isNone))).filter
    (fun p => p.2.isNone)

/-- Handler of `POST /api/rentals`: required-field check, availability
check, then the insert with `return_date = NULL`. -/
def createRental (db : DB) (req : RentalReq) (now : Nat) : Nat × Option Nat × DB :=
  match req.customer_id, req.inventory_id, req.staff_id with
  | some cid, some inv, some sid =>
    if cid = 0 ∨ inv = 0 ∨ sid = 0 then (400, none, db)
    else if (rentalAvailRows db inv).isEmpty then (400, none, db)
    else
      let rid := nextRentalId db
      (200, some rid, { db with rentals := db.rentals ++
        [{ rental_id := rid
           rental_date := now
           inventory_id := inv
           customer_id := cid
           staff_id := sid
           return_date := none
           last_update := now }] })
  | _, _, _ => (400, none, db)

/-! ## PUT /api/rentals/:rentalId/return  (server.js lines 728-787) -/

/-- Rows of the return-rental check query: the rental inner-joined with
`inventory`, `film` and `customer`. -/
def rentalCheckRows (db : DB) (rid : Nat) : List (Rental × Film × Customer) :=
  (db.rentals.filter (fun r => r.rental_id == rid)).flatMap (fun r =>
    (db.inventory.filter (fun i => i.inventory_id == r.inventory_id)).flatMap (fun i =>
      (db.films.filter (fun f => f.film_id == i.film_id)).flatMap (fun f =>
        (db.customers.filter (fun c => c.customer_id == r.customer_id)).map
          (fun c => (r, f, c)))))

/-- Handler of `PUT /api/rentals/:rentalId/return`: 404 when the check
query returns no row, 400 when the first row's `return_date` is already
set, otherwise `SET return_date = NOW()` on the rental. -/
def returnRental (db : DB) (rid : Nat) (now : Nat) : Nat × DB :=
  match (rentalCheckRows db rid).head? with
  | none => (404, db)
  | some (r, _, _) =>
    if r.return_date.isSome then (400, db)
    else (200, { db with rentals := db.rentals.map (fun r2 =>
      if r2.rental_id == rid then { r2 with return_date := some now, last_update := now }
      else r2) })

/-! ## Supporting lemmas -/

/-- Wildcard- and escape-free search strings: no `%`, no `_` and no `\\`. -/
def plainChars (q : List Char) : Bool :=
  q.all (fun c => c ≠ '%' && c ≠ '_' && c ≠ '\\')

theorem mem_ljoin_none {xs : List α} {f : α → List β} {x : α} :
    (x, (none : Option β)) ∈ ljoin xs f ↔ x ∈ xs ∧ f x = [] := by
  simp only [ljoin, List.mem_flatMap]
  constructor
  · rintro ⟨a, ha, hmem⟩
    by_cases hemp : (f a).isEmpty
    · rw [if_pos hemp, List.mem_singleton, Prod.mk.injEq] at hmem
      rcases hmem with ⟨rfl, -⟩
      exact ⟨ha, List.isEmpty_iff.mp hemp⟩
    · rw [if_neg hemp, List.mem_map] at hmem
      obtain ⟨b, -, hba⟩ := hmem
      exact absurd (congrArg Prod.snd hba) (by simp)
  · rintro ⟨hx, hnil⟩
    refine ⟨x, hx, ?_⟩
    rw [if_pos (by rw [hnil]; rfl)]
    exact List.mem_singleton.mpr rfl

theorem mem_ljoin_some {xs : List α} {f : α → List β} {x : α} {y : β} :
    (x, some y) ∈ ljoin xs f ↔ x ∈ xs ∧ y ∈ f x := by
  simp only [ljoin, List.mem_flatMap]
  constructor
  · rintro ⟨a, ha, hmem⟩
    by_cases hemp : (f a).isEmpty
    · rw [if_pos hemp, List.mem_singleton] at hmem
      exact absurd (congrArg Prod.snd hmem) (by simp)
    · rw [if_neg hemp, List.mem_map] at hmem
      obtain ⟨b, hb, hba⟩ := hmem
      have h1 : a = x := congrArg Prod.fst hba
      have h2 : b = y := Option.some.inj (congrArg Prod.snd hba)
      subst h1; subst h2
      exact ⟨ha, hb⟩
  · rintro ⟨hx, hy⟩
    refine ⟨x, hx, ?_⟩
    rw [if_neg (by simp [List.isEmpty_iff]; exact List.ne_nil_of_mem hy)]
    exact List.mem_map.mpr ⟨y, hy, rfl⟩

theorem ljoin_eq_nil_iff {xs : List α} {f : α → List β} :
    ljoin xs f = [] ↔ xs = [] := by
  constructor
  · intro h
    by_contra hne
    obtain ⟨x, hx⟩ := List.exists_mem_of_ne_nil xs hne
    cases hfe : f x with
    | nil =>
      have := mem_ljoin_none.mpr ⟨hx, hfe⟩
      rw [h] at this
      cases this
    | cons y ys =>
      have hy : y ∈ f x := by rw [hfe]; exact List.mem_cons_self y ys
      have := mem_ljoin_some.mpr ⟨hx, hy⟩
      rw [h] at this
      cases this
  · rintro rfl
    rfl

theorem leftChain_ne_nil {xs : List α} {f : α → List β} :
    leftChain xs f ≠ [] := by
  unfold leftChain
  split
  · simp
  · next hemp =>
    simp only [ne_eq, List.map_eq_nil_iff, ljoin_eq_nil_iff]
    intro h
    rw [h] at hemp
    exact hemp rfl

theorem leftChain_filterMap_snd {xs : List α} {f : α → List β}
    (h : Option β → Option γ) (h0 : h none = none) (c : γ) :
    (c ∈ (leftChain xs f).filterMap (fun p => h p.2) ↔
      ∃ x ∈ xs, ∃ y ∈ f x, h (some y) = some c) := by
  unfold leftChain
  split
  · next hemp =>
    rw [List.isEmpty_iff.mp hemp]
    simp [h0]
  · next hemp =>
    rw [List.filterMap_map]
    simp only [List.mem_filterMap, Function.comp]
    constructor
    · rintro ⟨⟨x, o⟩, hmem, hc⟩
      match o, hc with
      | none, hc => rw [h0] at hc; cases hc
      | some y, hc =>
        obtain ⟨hx, hy⟩ := mem_ljoin_some.mp hmem
        exact ⟨x, hx, y, hy, hc⟩
    · rintro ⟨x, hx, y, hy, hc⟩
      exact ⟨(x, some y), mem_ljoin_some.mpr ⟨hx, hy⟩, hc⟩

theorem leftChain_filterMap_fst {xs : List α} {f : α → List β}
    (h : Option α → Option γ) (h0 : h none = none) (c : γ) :
    (c ∈ (leftChain xs f).filterMap (fun p => h p.1) ↔
      ∃ x ∈ xs, h (some x) = some c) := by
  unfold leftChain
  split
  · next hemp =>
    rw [List.isEmpty_iff.mp hemp]
    simp [h0]
  · next hemp =>
    rw [List.filterMap_map]
    simp only [List.mem_filterMap, Function.comp]
    constructor
    · rintro ⟨⟨x, o⟩, hmem, hc⟩
      match o, hmem with
      | none, hmem => exact ⟨x, (mem_ljoin_none.mp hmem).1, hc⟩
      | some y, hmem => exact ⟨x, (mem_ljoin_some.mp hmem).1, hc⟩
    · rintro ⟨x, hx, hc⟩
      rcases hfe : f x with - | ⟨y, ys⟩
      · exact ⟨(x, none), mem_ljoin_none.mpr ⟨hx, hfe⟩, hc⟩
      · exact ⟨(x, some y), mem_ljoin_some.mpr ⟨hx, by rw [hfe]; exact List.mem_cons_self y ys⟩, hc⟩

theorem product_filterMap_snd {xs : List α} {ys : List β} (hxs : xs ≠ [])
    (g : β → Option γ) (c : γ) :
    (c ∈ (xs.product ys).filterMap (fun p => g p.2) ↔ c ∈ ys.filterMap g) := by
  simp only [List.mem_filterMap]
  constructor
  · rintro ⟨⟨a, b⟩, hab, hg⟩
    exact ⟨b, (List.mem_product.mp hab).2, hg⟩
  · rintro ⟨b, hb, hg⟩
    obtain ⟨a, ha⟩ := List.exists_mem_of_ne_nil xs hxs
    exact ⟨(a, b), List.mem_product.mpr ⟨ha, hb⟩, hg⟩

theorem dedup_length_eq_of_mem_iff [DecidableEq γ] {l1 l2 : List γ}
    (h : ∀ c, c ∈ l1 ↔ c ∈ l2) : l1.dedup.length = l2.dedup.length := by
  rw [← List.card_toFinset, ← List.card_toFinset]
  congr 1
  ext c
  simpa only [List.mem_toFinset] using h c

/-! Lemmas relating SQL `LIKE '%q%'` for a wildcard-free `q` to
case-insensitive substring occurrence. -/

theorem likeMatch_plain_append (q : List Char) (hq : plainChars q = true) :
    ∀ s : List Char, likeMatch (q ++ ['%']) s = leadsCI q s := by
  induction q with
  | nil =>
    intro s
    have h1 : likeMatch ([] ++ ['%']) s = s.tails.any (fun t => likeMatch [] t) := by
      simp [likeMatch]
    have h2 : s.tails.any (fun t => likeMatch [] t) = true :=
      List.any_eq_true.mpr ⟨[], (List.mem_tails [] s).mpr List.nil_suffix, rfl⟩
    rw [h1, h2]
    rfl
  | cons p ps ih =>
    intro s
    rw [plainChars, List.all_cons, Bool.and_eq_true] at hq
    obtain ⟨hp, hps⟩ := hq
    rw [Bool.and_eq_true, Bool.and_eq_true] at hp
    have hp1 : p ≠ '%' := by simpa using hp.1.1
    have hp2 : p ≠ '_' := by simpa using hp.1.2
    have hp3 : p ≠ '\\' := by simpa using hp.2
    cases s with
    | nil =>
      have h1 : likeMatch ((p :: ps) ++ ['%']) [] = false := by
        rw [List.cons_append]
        simp [likeMatch, hp1, hp3]
      rw [h1]
      rfl
    | cons c cs =>
      have h1 : likeMatch ((p :: ps) ++ ['%']) (c :: cs)
          = (charEqCI p c && likeMatch (ps ++ ['%']) cs) := by
        rw [List.cons_append]
        simp [likeMatch, hp1, hp2, hp3]
      rw [h1, ih hps cs]
      rfl

theorem hasSubCI_eq_any_tails (q s : List Char) :
    hasSubCI q s = s.tails.any (fun t => leadsCI q t) := by
  induction s with
  | nil =>
    rw [hasSubCI]
    simp
  | cons c cs ih =>
    rw [hasSubCI, List.tails_cons, List.any_cons, ih]

theorem likeStr_wrap_eq (s q : String) (hq : plainChars q.data = true) :
    likeStr s (likeWrap q) = hasSubCI q.data s.data := by
  have hdata : (likeWrap q).data = '%' :: (q.data ++ ['%']) := by
    show ('%' :: q.data) ++ ['%'] = '%' :: (q.data ++ ['%'])
    rw [List.cons_append]
  have h1 : likeMatch ('%' :: (q.data ++ ['%'])) s.data
      = s.data.tails.any (fun t => likeMatch (q.data ++ ['%']) t) := by
    simp [likeMatch]
  rw [likeStr, hdata, h1, hasSubCI_eq_any_tails]
  congr 1
  funext t
  rw [likeMatch_plain_append q.data hq t]

theorem leadsCI_iff (q : List Char) : ∀ s : List Char,
    (leadsCI q s = true ↔ (s.take q.length).map Char.toLower = q.map Char.toLower) := by
  induction q with
  | nil => intro s; simp [leadsCI]
  | cons p ps ih =>
    intro s
    cases s with
    | nil => simp [leadsCI]
    | cons c cs =>
      rw [leadsCI, Bool.and_eq_true, charEqCI, beq_iff_eq]
      simp only [List.length_cons, List.take_succ_cons, List.map_cons, List.cons.injEq]
      rw [ih cs]
      constructor
      · rintro ⟨h1, h2⟩; exact ⟨h1.symm, h2⟩
      · rintro ⟨h1, h2⟩; exact ⟨h1.symm, h2⟩

theorem hasSubCI_iff (q : List Char) : ∀ s : List Char,
    (hasSubCI q s = true ↔
      ∃ i, ((s.drop i).take q.length).map Char.toLower = q.map Char.toLower) := by
  intro s
  induction s with
  | nil =>
    rw [hasSubCI, leadsCI_iff]
    constructor
    · intro h; exact ⟨0, h⟩
    · rintro ⟨i, h⟩; simpa using h
  | cons c cs ih =>
    rw [hasSubCI, Bool.or_eq_true, leadsCI_iff, ih]
    constructor
    · rintro (h | ⟨i, h⟩)
      · exact ⟨0, h⟩
      · exact ⟨i + 1, h⟩
    · rintro ⟨i, h⟩
      cases i with
      | zero => exact Or.inl h
      | succ j => exact Or.inr ⟨j, h⟩

theorem likeStr_wrap_iff_occursCI (s q : String) (hq : plainChars q.data = true) :
    (likeStr s (likeWrap q) = true ↔ occursCI q s) := by
  rw [likeStr_wrap_eq s q hq, hasSubCI_iff]
  exact Iff.rfl

/-- `Math.ceil(t / L)` over naturals, in the form used by the pagination
claim. -/
theorem ceil_div_formula (t L : Nat) (hL : 0 < L) :
    (t + L - 1) / L = t / L + (if t % L = 0 then 0 else 1) := by
  rcases Nat.eq_zero_or_pos t with rfl | hpos
  · rw [Nat.zero_add, Nat.div_eq_of_lt (by omega)]
    simp
  · have h1 : t + L - 1 = (t - 1) + L := by omega
    have h2 : t = (t - 1) + 1 := by omega
    rw [h1, Nat.add_div_right _ hL]
    conv_rhs => rw [h2]
    rw [Nat.succ_div]
    by_cases hdvd : L ∣ (t - 1) + 1
    · rw [if_pos hdvd, if_pos (by rw [← Nat.dvd_iff_mod_eq_zero]; exact hdvd)]
    · rw [if_neg hdvd, if_neg (by rw [← Nat.dvd_iff_mod_eq_zero]; exact hdvd)]

/-! ## Claim C1: POST /api/customers duplicate-email rejection -/

/-- Database with a single soft-deleted (inactive) customer holding the
email `dup@x.com`; no active customer has that email. -/
def c1db : DB :=
  { languages := [], films := [], actors := [], categories := [], film_actors := []
    film_categories := [], inventory := [], stores := []
    customers := [{ customer_id := 1, store_id := 1, first_name := "ALICE"
                    last_name := "OLD", email := "dup@x.com", address_id := 1
                    active := 0, create_date := 0, last_update := 0 }]
    rentals := [] }

/-- Create request reusing the inactive customer's email. -/
def c1req : CustomerReq :=
  { first_name := some "JOHN", last_name := some "DOE"
    email := some "dup@x.com", store_id := none }

/-- C1 fails as stated: the duplicate-email check of `POST /api/customers`
runs over all customer rows, not only active ones.  Here no active
customer has the email, yet the request is rejected with 400 and nothing
is inserted. -/
theorem c1_counterexample :
    (postCustomers c1db c1req 0).1 = 400 ∧
    (postCustomers c1db c1req 0).2.2 = c1db ∧
    ¬ ∃ c ∈ c1db.customers, c.active = 1 ∧ c.email = "dup@x.com" := by
  decide

/-- C1 (amended): for a `POST /api/customers` request with first name,
last name and email all present and nonempty, the request is rejected with
400 and nothing is inserted exactly when some customer row - active or
not - already has the given email; otherwise a row with `active = 1` is
inserted and the response is 200 with the generated customer id. -/
theorem c1_amended (db : DB) (req : CustomerReq) (now : Nat)
    (fn ln em : String)
    (hfn : req.first_name = some fn) (hln : req.last_name = some ln)
    (hem : req.email = some em)
    (hfn0 : fn ≠ "") (hln0 : ln ≠ "") (hem0 : em ≠ "") :
    ((∃ c ∈ db.customers, c.email = em) → postCustomers db req now = (400, none, db)) ∧
    ((¬ ∃ c ∈ db.customers, c.email = em) →
      postCustomers db req now = (200, some (nextCustomerId db),
        { db with customers := db.customers ++
            [{ customer_id := nextCustomerId db
               store_id := orDefault req.store_id 1
               first_name := fn
               last_name := ln
               email := em
               address_id := 1
               active := 1
               create_date := now
               last_update := now }] })) := by
  have hne : ¬ (fn = "" ∨ ln = "" ∨ em = "") := by
    push_neg
    exact ⟨hfn0, hln0, hem0⟩
  constructor
  · intro hdup
    simp only [postCustomers, hfn, hln, hem]
    rw [if_neg hne]
    have hfull : ¬ ((db.customers.filter (fun c => c.email == em)).isEmpty = true) := by
      rw [List.isEmpty_iff]
      intro hnil
      obtain ⟨c, hc, hce⟩ := hdup
      have hmem : c ∈ db.customers.filter (fun c => c.email == em) :=
        List.mem_filter.mpr ⟨hc, by simp [hce]⟩
      rw [hnil] at hmem
      cases hmem
    rw [if_neg hfull]
  · intro hnodup
    simp only [postCustomers, hfn, hln, hem]
    rw [if_neg hne]
    have hnil : db.customers.filter (fun c => c.email == em) = [] := by
      rw [List.filter_eq_nil_iff]
      intro c hc
      simp only [beq_iff_eq]
      exact fun hce => hnodup ⟨c, hc, hce⟩
    rw [if_pos (by rw [hnil]; rfl)]

/-- Empty database for the C1 witness. -/
def c1wdb : DB :=
  { languages := [], films := [], actors := [], categories := [], film_actors := []
    film_categories := [], inventory := [], stores := [], customers := [], rentals := [] }

/-- Valid create request for the C1 witness. -/
def c1wreq : CustomerReq :=
  { first_name := some "JOHN", last_name := some "DOE"
    email := some "jd@x.com", store_id := none }

/-- C1 witness: the amended theorem applied to an empty database inserts
the new customer with `active = 1` and answers 200. -/
theorem c1_amended_witness :
    postCustomers c1wdb c1wreq 3 = (200, some (nextCustomerId c1wdb),
      { c1wdb with customers := c1wdb.customers ++
          [{ customer_id := nextCustomerId c1wdb
             store_id := orDefault c1wreq.store_id 1
             first_name := "JOHN"
             last_name := "DOE"
             email := "jd@x.com"
             address_id := 1
             active := 1
             create_date := 3
             last_update := 3 }] }) :=
  (c1_amended c1wdb c1wreq 3 "JOHN" "DOE" "jd@x.com" rfl rfl rfl
    (by decide) (by decide) (by decide)).2 (by decide)

/-! ## Claim C2: POST /api/rentals open-inventory rejection -/

/-- C2: a `POST /api/rentals` request whose three fields are present (and
truthy) naming an inventory item that has an open rental is rejected with
400 and the database - in particular the rental table - is unchanged. -/
theorem c2_open_rental_rejected (db : DB) (req : RentalReq) (now : Nat)
    (cid inv sid : Nat)
    (hc : req.customer_id = some cid) (hi : req.inventory_id = some inv)
    (hs : req.staff_id = some sid)
    (hc0 : cid ≠ 0) (hi0 : inv ≠ 0) (hs0 : sid ≠ 0)
    (r : Rental) (hr : r ∈ db.rentals) (hrinv : r.inventory_id = inv)
    (hropen : r.return_date = none) :
    createRental db req now = (400, none, db) := by
  have hne : ¬ (cid = 0 ∨ inv = 0 ∨ sid = 0) := by
    push_neg
    exact ⟨hc0, hi0, hs0⟩
  simp only [createRental, hc, hi, hs]
  rw [if_neg hne]
  have hempty : rentalAvailRows db inv = [] := by
    rw [rentalAvailRows, List.filter_eq_nil_iff]
    rintro ⟨i, o⟩ hmem
    cases o with
    | some y => simp
    | none =>
      exfalso
      obtain ⟨hi_mem, hnil⟩ := mem_ljoin_none.mp hmem
      have hiid : i.inventory_id = inv := by
        have := (List.mem_filter.mp hi_mem).2
        simpa using this
      have hrmem : r ∈ db.rentals.filter
          (fun r2 => r2.inventory_id == i.inventory_id && r2.return_date.isNone) := by
        refine List.mem_filter.mpr ⟨hr, ?_⟩
        simp [hrinv, hiid, hropen]
      rw [hnil] at hrmem
      cases hrmem
  rw [if_pos (by rw [hempty]; rfl)]

/-- Database for the C2 witness: inventory item 5 is out on open rental 1. -/
def c2wdb : DB :=
  { languages := [], films := [], actors := [], categories := [], film_actors := []
    film_categories := [], inventory := [{ inventory_id := 5, film_id := 1, store_id := 1 }]
    stores := [], customers := []
    rentals := [{ rental_id := 1, rental_date := 0, inventory_id := 5, customer_id := 7
                  staff_id := 1, return_date := none, last_update := 0 }] }

/-- Rental request for the C2 witness. -/
def c2wreq : RentalReq :=
  { customer_id := some 7, inventory_id := some 5, staff_id := some 1 }

/-- C2 witness: renting inventory item 5 while rental 1 is still open is
rejected with 400 and the database is unchanged. -/
theorem c2_witness : createRental c2wdb c2wreq 9 = (400, none, c2wdb) :=
  c2_open_rental_rejected c2wdb c2wreq 9 7 5 1 rfl rfl rfl
    (by decide) (by decide) (by decide)
    { rental_id := 1, rental_date := 0, inventory_id := 5, customer_id := 7
      staff_id := 1, return_date := none, last_update := 0 }
    (by decide) rfl rfl

/-! ## Claim C3: DELETE /api/customers/:id soft delete -/

/-- C3: for a `DELETE /api/customers/:id` naming an existing active
customer, under referential integrity of `rental.inventory_id`: if the
customer has an open rental the request is rejected with 400 and the
database is unchanged; otherwise the response is 200, the customer's
`active` flag is set to 0 (all other customers untouched) and the rental
table is unchanged. -/
theorem c3_soft_delete (db : DB) (cid : Nat) (now : Nat)
    (hfk : ∀ r ∈ db.rentals, ∃ i ∈ db.inventory, i.inventory_id = r.inventory_id)
    (hex : ∃ c ∈ db.customers, c.customer_id = cid ∧ c.active = 1) :
    ((∃ r ∈ db.rentals, r.customer_id = cid ∧ r.return_date = none) →
      deleteCustomer db cid now = (400, db)) ∧
    ((¬ ∃ r ∈ db.rentals, r.customer_id = cid ∧ r.return_date = none) →
      (deleteCustomer db cid now).1 = 200 ∧
      (deleteCustomer db cid now).2.customers.map (fun c => (c.customer_id, c.active))
        = db.customers.map (fun c =>
            (c.customer_id, if c.customer_id = cid then 0 else c.active)) ∧
      (deleteCustomer db cid now).2.rentals = db.rentals) := by
  have hfound : ¬ ((db.customers.filter
      (fun c => c.customer_id == cid && c.active == 1)).isEmpty = true) := by
    rw [List.isEmpty_iff]
    intro hnil
    obtain ⟨c, hc, hcid, hact⟩ := hex
    have hmem : c ∈ db.customers.filter (fun c => c.customer_id == cid && c.active == 1) :=
      List.mem_filter.mpr ⟨hc, by simp [hcid, hact]⟩
    rw [hnil] at hmem
    cases hmem
  constructor
  · intro hopen
    rw [deleteCustomer, if_neg hfound]
    obtain ⟨r, hr, hrcid, hropen⟩ := hopen
    obtain ⟨i, hi, hiid⟩ := hfk r hr
    have hpos : 0 < openRentalJoinCount db cid := by
      rw [openRentalJoinCount, List.length_pos]
      intro hnil
      have hrmem : r ∈ db.rentals.filter
          (fun r2 => r2.customer_id == cid && r2.return_date.isNone) :=
        List.mem_filter.mpr ⟨hr, by simp [hrcid, hropen]⟩
      have himem : i ∈ (db.rentals.filter
          (fun r2 => r2.customer_id == cid && r2.return_date.isNone)).flatMap
          (fun r2 => db.inventory.filter (fun i2 => i2.inventory_id == r2.inventory_id)) :=
        List.mem_flatMap.mpr ⟨r, hrmem, List.mem_filter.mpr ⟨hi, by simp [hiid]⟩⟩
      rw [hnil] at himem
      cases himem
    rw [if_pos hpos]
  · intro hnoopen
    rw [deleteCustomer, if_neg hfound]
    have hz : openRentalJoinCount db cid = 0 := by
      rw [openRentalJoinCount]
      have hnil : db.rentals.filter
          (fun r2 => r2.customer_id == cid && r2.return_date.isNone) = [] := by
        rw [List.filter_eq_nil_iff]
        intro r2 hr2
        simp only [Bool.and_eq_true, beq_iff_eq, Option.isNone_iff_eq_none]
        rintro ⟨h1, h2⟩
        exact hnoopen ⟨r2, hr2, h1, h2⟩
      rw [hnil]
      rfl
    rw [if_neg (by rw [hz]; exact lt_irrefl 0)]
    refine ⟨rfl, ?_, rfl⟩
    rw [List.map_map]
    refine List.map_congr_left (fun c hc => ?_)
    by_cases hcase : c.customer_id = cid
    · simp [Function.comp, hcase]
    · simp [Function.comp, hcase]

/-- Database for the C3 witness: active customer 4 holds open rental 1 on
inventory item 5. -/
def c3wdb : DB :=
  { languages := [], films := [], actors := [], categories := [], film_actors := []
    film_categories := [], inventory := [{ inventory_id := 5, film_id := 1, store_id := 1 }]
    stores := []
    customers := [{ customer_id := 4, store_id := 1, first_name := "MARY"
                    last_name := "SMITH", email := "m@x.com", address_id := 1
                    active := 1, create_date := 0, last_update := 0 }]
    rentals := [{ rental_id := 1, rental_date := 0, inventory_id := 5, customer_id := 4
                  staff_id := 1, return_date := none, last_update := 0 }] }

/-- C3 witness: deleting customer 4, who holds an open rental, is rejected
with 400 and the database is unchanged. -/
theorem c3_witness : deleteCustomer c3wdb 4 9 = (400, c3wdb) :=
  (c3_soft_delete c3wdb 4 9 (by decide) (by decide)).1 (by decide)

/-! ## Claim C4: PUT /api/rentals/:rentalId/return -/

/-- C4: for a `PUT /api/rentals/:rentalId/return` naming an existing
rental (under uniqueness of rental ids and referential integrity of the
rental's inventory, film and customer references): if the rental's
`return_date` is already set the request is rejected with 400 and the
database is unchanged; otherwise the response is 200, the rental's
`return_date` is set (all other rentals untouched) and the customer table
is unchanged. -/
theorem c4_return_rental (db : DB) (rid : Nat) (now : Nat)
    (hnodup : (db.rentals.map (fun r => r.rental_id)).Nodup)
    (r0 : Rental) (hr0 : r0 ∈ db.rentals) (hrid : r0.rental_id = rid)
    (i0 : Inventory) (hi0 : i0 ∈ db.inventory) (hii : i0.inventory_id = r0.inventory_id)
    (f0 : Film) (hf0 : f0 ∈ db.films) (hff : f0.film_id = i0.film_id)
    (c0 : Customer) (hc0 : c0 ∈ db.customers) (hcc : c0.customer_id = r0.customer_id) :
    ((r0.return_date ≠ none) → returnRental db rid now = (400, db)) ∧
    (r0.return_date = none →
      (returnRental db rid now).1 = 200 ∧
      (returnRental db rid now).2.rentals.map (fun r => (r.rental_id, r.return_date))
        = db.rentals.map (fun r =>
            (r.rental_id, if r.rental_id = rid then some now else r.return_date)) ∧
      (returnRental db rid now).2.customers = db.customers) := by
  have hfirst : ∀ x ∈ rentalCheckRows db rid, x.1 = r0 := by
    intro x hx
    rw [rentalCheckRows] at hx
    obtain ⟨r, hrf, hx2⟩ := List.mem_flatMap.mp hx
    obtain ⟨i, -, hx3⟩ := List.mem_flatMap.mp hx2
    obtain ⟨f, -, hx4⟩ := List.mem_flatMap.mp hx3
    obtain ⟨c, -, hx5⟩ := List.mem_map.mp hx4
    obtain ⟨hrmem, hrb⟩ := List.mem_filter.mp hrf
    have hreq : r.rental_id = rid := by simpa using hrb
    have : r = r0 :=
      List.inj_on_of_nodup_map hnodup hrmem hr0 (by rw [hreq, hrid])
    rw [← hx5, ← this]
  have hne : rentalCheckRows db rid ≠ [] := by
    intro hnil
    have hrmem : r0 ∈ db.rentals.filter (fun r => r.rental_id == rid) :=
      List.mem_filter.mpr ⟨hr0, by simp [hrid]⟩
    have himem : i0 ∈ db.inventory.filter (fun i => i.inventory_id == r0.inventory_id) :=
      List.mem_filter.mpr ⟨hi0, by simp [hii]⟩
    have hfmem : f0 ∈ db.films.filter (fun f => f.film_id == i0.film_id) :=
      List.mem_filter.mpr ⟨hf0, by simp [hff]⟩
    have hcmem : c0 ∈ db.customers.filter (fun c => c.customer_id == r0.customer_id) :=
      List.mem_filter.mpr ⟨hc0, by simp [hcc]⟩
    have hfull : (r0, f0, c0) ∈ rentalCheckRows db rid := by
      rw [rentalCheckRows]
      exact List.mem_flatMap.mpr ⟨r0, hrmem,
        List.mem_flatMap.mpr ⟨i0, himem,
          List.mem_flatMap.mpr ⟨f0, hfmem,
            List.mem_map.mpr ⟨c0, hcmem, rfl⟩⟩⟩⟩
    rw [hnil] at hfull
    cases hfull
  obtain ⟨hd, tl, hcons⟩ := List.exists_cons_of_ne_nil hne
  have hhd : hd.1 = r0 := hfirst hd (by rw [hcons]; exact List.mem_cons_self hd tl)
  obtain ⟨r1, f1, c1⟩ := hd
  have hr1 : r1 = r0 := hhd
  subst hr1
  constructor
  · intro hset
    simp only [returnRental, hcons, List.head?_cons]
    rw [if_pos (Option.isSome_iff_ne_none.mpr hset)]
  · intro hunset
    simp only [returnRental, hcons, List.head?_cons]
    rw [if_neg (by rw [hunset]; simp)]
    refine ⟨rfl, ?_, rfl⟩
    rw [List.map_map]
    refine List.map_congr_left (fun r hr => ?_)
    by_cases hcase : r.rental_id = rid
    · simp [Function.comp, hcase]
    · simp [Function.comp, hcase]

/-- Database for the C4 witness: rental 2 on inventory 5 was already
returned at tick 5. -/
def c4wdb : DB :=
  { languages := []
    films := [{ film_id := 1, title := "T", description := "d", release_year := 2006
                rating := "G", rental_rate := 1, rental_duration := 3, length := 60
                replacement_cost := 10, special_features := "", language_id := 1 }]
    actors := [], categories := [], film_actors := [], film_categories := []
    inventory := [{ inventory_id := 5, film_id := 1, store_id := 1 }]
    stores := []
    customers := [{ customer_id := 7, store_id := 1, first_name := "MARY"
                    last_name := "SMITH", email := "m@x.com", address_id := 1
                    active := 1, create_date := 0, last_update := 0 }]
    rentals := [{ rental_id := 2, rental_date := 0, inventory_id := 5, customer_id := 7
                  staff_id := 1, return_date := some 5, last_update := 5 }] }

/-- C4 witness: returning the already-returned rental 2 is rejected with
400 and the database is unchanged. -/
theorem c4_witness : returnRental c4wdb 2 9 = (400, c4wdb) :=
  (c4_return_rental c4wdb 2 9 (by decide)
    { rental_id := 2, rental_date := 0, inventory_id := 5, customer_id := 7
      staff_id := 1, return_date := some 5, last_update := 5 }
    (by decide) rfl
    { inventory_id := 5, film_id := 1, store_id := 1 } (by decide) rfl
    { film_id := 1, title := "T", description := "d", release_year := 2006
      rating := "G", rental_rate := 1, rental_duration := 3, length := 60
      replacement_cost := 10, special_features := "", language_id := 1 }
    (by decide) rfl
    { customer_id := 7, store_id := 1, first_name := "MARY"
      last_name := "SMITH", email := "m@x.com", address_id := 1
      active := 1, create_date := 0, last_update := 0 }
    (by decide) rfl).1 (by decide)

/-! ## Claim C10: PUT /api/customers/:id self-excluding email check -/

/-- C10: for a `PUT /api/customers/:id` request with all three fields
present and nonempty, naming an existing customer, the duplicate-email
check excludes the customer being updated: the request is rejected with
400 exactly when a *different* customer row already has the new email, and
otherwise (in particular when the customer keeps their own email and
nobody else shares it) the update is applied and the response is 200. -/
theorem c10_update_excludes_self (db : DB) (cid : Nat) (req : CustomerReq) (now : Nat)
    (fn ln em : String)
    (hfn : req.first_name = some fn) (hln : req.last_name = some ln)
    (hem : req.email = some em)
    (hfn0 : fn ≠ "") (hln0 : ln ≠ "") (hem0 : em ≠ "")
    (hex : ∃ c ∈ db.customers, c.customer_id = cid) :
    ((putCustomer db cid req now).1 = 400 ↔
      ∃ c ∈ db.customers, c.email = em ∧ c.customer_id ≠ cid) ∧
    ((¬ ∃ c ∈ db.customers, c.email = em ∧ c.customer_id ≠ cid) →
      putCustomer db cid req now = (200,
        { db with customers := db.customers.map (fun c =>
            if c.customer_id == cid then
              { c with first_name := fn
                       last_name := ln
                       email := em
                       store_id := orDefault req.store_id 1
                       last_update := now }
            else c) })) := by
  have hne : ¬ (fn = "" ∨ ln = "" ∨ em = "") := by
    push_neg
    exact ⟨hfn0, hln0, hem0⟩
  have hfound : ¬ ((db.customers.filter (fun c => c.customer_id == cid)).isEmpty = true) := by
    rw [List.isEmpty_iff]
    intro hnil
    obtain ⟨c, hc, hcid⟩ := hex
    have hmem : c ∈ db.customers.filter (fun c => c.customer_id == cid) :=
      List.mem_filter.mpr ⟨hc, by simp [hcid]⟩
    rw [hnil] at hmem
    cases hmem
  by_cases hdup : ∃ c ∈ db.customers, c.email = em ∧ c.customer_id ≠ cid
  · have hLne : ¬ ((db.customers.filter
        (fun c => c.email == em && c.customer_id != cid)).isEmpty = true) := by
      rw [List.isEmpty_iff]
      intro hnil
      obtain ⟨c, hc, hce, hcne⟩ := hdup
      have hmem : c ∈ db.customers.filter (fun c => c.email == em && c.customer_id != cid) :=
        List.mem_filter.mpr ⟨hc, by simp [hce, hcne]⟩
      rw [hnil] at hmem
      cases hmem
    constructor
    · simp only [putCustomer, hfn, hln, hem]
      rw [if_neg hne, if_neg hfound, if_neg hLne]
      exact iff_of_true rfl hdup
    · intro hcontra
      exact absurd hdup hcontra
  · have hLnil : db.customers.filter (fun c => c.email == em && c.customer_id != cid) = [] := by
      rw [List.filter_eq_nil_iff]
      intro c hc
      simp only [Bool.and_eq_true, beq_iff_eq, bne_iff_ne]
      rintro ⟨h1, h2⟩
      exact hdup ⟨c, hc, h1, h2⟩
    constructor
    · simp only [putCustomer, hfn, hln, hem]
      rw [if_neg hne, if_neg hfound, if_pos (by rw [hLnil]; rfl)]
      refine iff_of_false ?_ hdup
      intro h
      simp at h
    · intro _h
      simp only [putCustomer, hfn, hln, hem]
      rw [if_neg hne, if_neg hfound, if_pos (by rw [hLnil]; rfl)]

/-- Database for the C10 witness: one active customer keeping their own
email on update. -/
def c10wdb : DB :=
  { languages := [], films := [], actors := [], categories := [], film_actors := []
    film_categories := [], inventory := [], stores := []
    customers := [{ customer_id := 3, store_id := 1, first_name := "MARY"
                    last_name := "SMITH", email := "m@x.com", address_id := 1
                    active := 1, create_date := 0, last_update := 0 }]
    rentals := [] }

/-- Update request for the C10 witness reusing the customer's own email. -/
def c10wreq : CustomerReq :=
  { first_name := some "MARIA", last_name := some "SMITH"
    email := some "m@x.com", store_id := some 1 }

/-- C10 witness: updating customer 3 while keeping their own email
succeeds with 200 and applies the update. -/
theorem c10_witness :
    putCustomer c10wdb 3 c10wreq 9 = (200,
      { c10wdb with customers := c10wdb.customers.map (fun c =>
          if c.customer_id == 3 then
            { c with first_name := "MARIA"
                     last_name := "SMITH"
                     email := "m@x.com"
                     store_id := orDefault c10wreq.store_id 1
                     last_update := 9 }
          else c) }) :=
  (c10_update_excludes_self c10wdb 3 c10wreq 9 "MARIA" "SMITH" "m@x.com"
    rfl rfl rfl (by decide) (by decide) (by decide) (by decide)).2 (by decide)

/-! ## Claim C8: GET /api/search-films dispatch -/

/-- Empty database for the C8 counterexample and witness. -/
def c8db : DB :=
  { languages := [], films := [], actors := [], categories := [], film_actors := []
    film_categories := [], inventory := [], stores := [], customers := [], rentals := [] }

/-- C8 fails as stated: with both parameters present (`query` is the empty
string, `type` is the valid discriminator `title`) the handler answers 400
without executing any of the three query shapes, because the guard
`if (!query || !type)` also rejects a present-but-empty parameter. -/
theorem c8_counterexample :
    (searchFilms c8db (some "") (some "title")).1 = 400 ∧
    (searchFilms c8db (some "") (some "title")).2 = none ∧
    (some "" : Option String) ≠ none ∧
    ("title" = "title" ∨ "title" = "actor" ∨ "title" = "genre") := by
  decide

/-- C8 (amended): if `query` or `type` is missing *or empty* the response
is 400; otherwise, if `type` is one of `title`, `actor`, `genre` exactly
the corresponding query shape is executed with 200, and any other `type`
yields 400. -/
theorem c8_amended (db : DB) (q_opt t_opt : Option String) :
    ((truthyStr q_opt = false ∨ truthyStr t_opt = false) →
      searchFilms db q_opt t_opt = (400, none)) ∧
    (∀ q t, q_opt = some q → t_opt = some t → q ≠ "" →
      ((t = "title" → searchFilms db q_opt t_opt = (200, some (searchRowsTitle db q))) ∧
       (t = "actor" → searchFilms db q_opt t_opt = (200, some (searchRowsActor db q))) ∧
       (t = "genre" → searchFilms db q_opt t_opt = (200, some (searchRowsGenre db q))) ∧
       (t ≠ "title" → t ≠ "actor" → t ≠ "genre" →
         searchFilms db q_opt t_opt = (400, none)))) := by
  constructor
  · intro hfalsy
    rcases q_opt with - | q
    · rfl
    · rcases t_opt with - | t
      · rfl
      · simp only [truthyStr, decide_eq_false_iff_not, not_not] at hfalsy
        simp only [searchFilms]
        rw [if_pos hfalsy]
  · intro q t hq ht hq0
    subst hq
    subst ht
    refine ⟨?_, ?_, ?_, ?_⟩
    · rintro rfl
      simp only [searchFilms]
      rw [if_neg (by push_neg; exact ⟨hq0, by decide⟩)]
      simp
    · rintro rfl
      simp only [searchFilms]
      rw [if_neg (by push_neg; exact ⟨hq0, by decide⟩)]
      simp
    · rintro rfl
      simp only [searchFilms]
      rw [if_neg (by push_neg; exact ⟨hq0, by decide⟩)]
      simp
    · intro h1 h2 h3
      by_cases ht0 : t = ""
      · simp only [searchFilms]
        rw [if_pos (Or.inr ht0)]
      · simp only [searchFilms]
        rw [if_neg (by push_neg; exact ⟨hq0, ht0⟩), if_neg h1, if_neg h2, if_neg h3]

/-- C8 witness: a nonempty query with `type=genre` executes exactly the
genre query shape. -/
theorem c8_amended_witness :
    searchFilms c8db (some "Action") (some "genre") = (200, some (searchRowsGenre c8db "Action")) :=
  ((c8_amended c8db (some "Action") (some "genre")).2 "Action" "genre"
    rfl rfl (by decide)).2.2.1 rfl

/-! ## Claim C7: single-resource lookups -/

/-- Database for the C7 counterexample: actor 1 exists but appears in no
film, so the inner joins of the actor aggregate query return no row. -/
def c7db : DB :=
  { languages := [], films := [], actors := [{ actor_id := 1, first_name := "PENELOPE"
                                               last_name := "GUINESS" }]
    categories := [], film_actors := [], film_categories := [], inventory := []
    stores := [], customers := [], rentals := [] }

/-- C7 fails as stated: the actor row with id 1 exists, yet
`GET /api/actor/1` answers 404 because the aggregate query inner-joins
`film_actor`, `film` and `inventory`. -/
theorem c7_counterexample :
    (∃ a ∈ c7db.actors, a.actor_id = 1) ∧ (getActor c7db 1).1 = 404 := by
  decide

/-- C7 (amended): film and customer-details lookups answer 404 exactly
when no row with the id exists and 200 (with a payload) otherwise; the
actor lookup answers 200 exactly when the actor exists *and* is joined to
at least one film that has an inventory copy, and 404 otherwise. -/
theorem c7_amended (db : DB) (rid : Nat) :
    ((getFilm db rid).1 = 200 ↔ ∃ f ∈ db.films, f.film_id = rid) ∧
    ((getFilm db rid).1 = 404 ↔ ¬ ∃ f ∈ db.films, f.film_id = rid) ∧
    ((getFilm db rid).2.isSome = true ↔ ∃ f ∈ db.films, f.film_id = rid) ∧
    ((getCustomerDetails db rid).1 = 200 ↔ ∃ c ∈ db.customers, c.customer_id = rid) ∧
    ((getCustomerDetails db rid).1 = 404 ↔ ¬ ∃ c ∈ db.customers, c.customer_id = rid) ∧
    ((getCustomerDetails db rid).2.isSome = true ↔ ∃ c ∈ db.customers, c.customer_id = rid) ∧
    ((getActor db rid).1 = 200 ↔ (∃ a ∈ db.actors, a.actor_id = rid ∧
      ∃ fa ∈ db.film_actors, fa.actor_id = a.actor_id ∧
      ∃ f ∈ db.films, f.film_id = fa.film_id ∧
      ∃ i ∈ db.inventory, i.film_id = f.film_id)) ∧
    ((getActor db rid).1 = 404 ↔ ¬ (∃ a ∈ db.actors, a.actor_id = rid ∧
      ∃ fa ∈ db.film_actors, fa.actor_id = a.actor_id ∧
      ∃ f ∈ db.films, f.film_id = fa.film_id ∧
      ∃ i ∈ db.inventory, i.film_id = f.film_id)) := by
  have hfilm : ((getFilm db rid).1 = 200 ↔ ∃ f ∈ db.films, f.film_id = rid) ∧
      ((getFilm db rid).1 = 404 ↔ ¬ ∃ f ∈ db.films, f.film_id = rid) ∧
      ((getFilm db rid).2.isSome = true ↔ ∃ f ∈ db.films, f.film_id = rid) := by
    cases hfind : db.films.find? (fun f => f.film_id == rid) with
    | none =>
      have hno : ¬ ∃ f ∈ db.films, f.film_id = rid := by
        rintro ⟨f, hf, hfid⟩
        have := List.find?_eq_none.mp hfind f hf
        simp [hfid] at this
      refine ⟨?_, ?_, ?_⟩ <;> simp [getFilm, hfind, hno]
    | some f =>
      have hyes : ∃ f2 ∈ db.films, f2.film_id = rid := by
        refine ⟨f, List.mem_of_find?_eq_some hfind, ?_⟩
        have := List.find?_some hfind
        simpa using this
      refine ⟨?_, ?_, ?_⟩ <;> simp [getFilm, hfind, hyes]
  have hcust : ((getCustomerDetails db rid).1 = 200 ↔ ∃ c ∈ db.customers, c.customer_id = rid) ∧
      ((getCustomerDetails db rid).1 = 404 ↔ ¬ ∃ c ∈ db.customers, c.customer_id = rid) ∧
      ((getCustomerDetails db rid).2.isSome = true ↔ ∃ c ∈ db.customers, c.customer_id = rid) := by
    cases hfind : db.customers.find? (fun c => c.customer_id == rid) with
    | none =>
      have hno : ¬ ∃ c ∈ db.customers, c.customer_id = rid := by
        rintro ⟨c, hc, hcid⟩
        have := List.find?_eq_none.mp hfind c hc
        simp [hcid] at this
      refine ⟨?_, ?_, ?_⟩ <;> simp [getCustomerDetails, hfind, hno]
    | some c =>
      have hyes : ∃ c2 ∈ db.customers, c2.customer_id = rid := by
        refine ⟨c, List.mem_of_find?_eq_some hfind, ?_⟩
        have := List.find?_some hfind
        simpa using this
      refine ⟨?_, ?_, ?_⟩ <;> simp [getCustomerDetails, hfind, hyes]
  have hchain : actorJoinRows db rid = [] ↔ ¬ (∃ a ∈ db.actors, a.actor_id = rid ∧
      ∃ fa ∈ db.film_actors, fa.actor_id = a.actor_id ∧
      ∃ f ∈ db.films, f.film_id = fa.film_id ∧
      ∃ i ∈ db.inventory, i.film_id = f.film_id) := by
    rw [actorJoinRows, ljoin_eq_nil_iff, List.eq_nil_iff_forall_not_mem]
    constructor
    · rintro hall ⟨a, ha, haid, fa, hfa, hfaid, f, hf, hfid, i, hi, hifid⟩
      refine hall (a, fa, f, i) ?_
      refine List.mem_flatMap.mpr ⟨a, List.mem_filter.mpr ⟨ha, by simp [haid]⟩, ?_⟩
      refine List.mem_flatMap.mpr ⟨fa, List.mem_filter.mpr ⟨hfa, by simp [hfaid]⟩, ?_⟩
      refine List.mem_flatMap.mpr ⟨f, List.mem_filter.mpr ⟨hf, by simp [hfid]⟩, ?_⟩
      exact List.mem_map.mpr ⟨i, List.mem_filter.mpr ⟨hi, by simp [hifid]⟩, rfl⟩
    · intro hno x hx
      obtain ⟨a, haf, hx2⟩ := List.mem_flatMap.mp hx
      obtain ⟨fa, hfaf, hx3⟩ := List.mem_flatMap.mp hx2
      obtain ⟨f, hff, hx4⟩ := List.mem_flatMap.mp hx3
      obtain ⟨i, hif, -⟩ := List.mem_map.mp hx4
      obtain ⟨ha, hab⟩ := List.mem_filter.mp haf
      obtain ⟨hfa, hfab⟩ := List.mem_filter.mp hfaf
      obtain ⟨hf, hfb⟩ := List.mem_filter.mp hff
      obtain ⟨hi, hib⟩ := List.mem_filter.mp hif
      exact hno ⟨a, ha, by simpa using hab, fa, hfa, by simpa using hfab,
        f, hf, by simpa using hfb, i, hi, by simpa using hib⟩
  have hactor : ((getActor db rid).1 = 200 ↔ (∃ a ∈ db.actors, a.actor_id = rid ∧
      ∃ fa ∈ db.film_actors, fa.actor_id = a.actor_id ∧
      ∃ f ∈ db.films, f.film_id = fa.film_id ∧
      ∃ i ∈ db.inventory, i.film_id = f.film_id)) ∧
      ((getActor db rid).1 = 404 ↔ ¬ (∃ a ∈ db.actors, a.actor_id = rid ∧
      ∃ fa ∈ db.film_actors, fa.actor_id = a.actor_id ∧
      ∃ f ∈ db.films, f.film_id = fa.film_id ∧
      ∃ i ∈ db.inventory, i.film_id = f.film_id)) := by
    cases hrows : actorJoinRows db rid with
    | nil =>
      have hno := hchain.mp hrows
      constructor <;> simp [getActor, hrows, hno]
    | cons hd tl =>
      have hyes : ∃ a ∈ db.actors, a.actor_id = rid ∧
          ∃ fa ∈ db.film_actors, fa.actor_id = a.actor_id ∧
          ∃ f ∈ db.films, f.film_id = fa.film_id ∧
          ∃ i ∈ db.inventory, i.film_id = f.film_id := by
        by_contra hno
        have := hchain.mpr hno
        rw [hrows] at this
        cases this
      constructor <;> simp [getActor, hrows, hyes]
  exact ⟨hfilm.1, hfilm.2.1, hfilm.2.2, hcust.1, hcust.2.1, hcust.2.2,
    hactor.1, hactor.2⟩

/-- C7 witness: on the counterexample database the amended actor
characterization yields the 404. -/
theorem c7_amended_witness : (getActor c7db 1).1 = 404 :=
  (c7_amended c7db 1).2.2.2.2.2.2.2.mpr (by decide)

/-! ## Claim C9: GET /api/customers pagination -/

/-- The effective `page`/`limit` defaults are positive. -/
theorem orDefault_pos (x : Option Nat) (d : Nat) (hd : 0 < d) : 0 < orDefault x d := by
  cases x with
  | none => exact hd
  | some n =>
    rw [orDefault]
    split
    · exact hd
    · omega

/-- C9: every customer-list response returns at most `limit` rows, only
active customers, defaults `limit` to 10 and `page` to 1, and computes
`totalPages = ceil(totalCustomers / limit)`,
`hasNext = (page < totalPages)` and `hasPrev = (page > 1)`. -/
theorem c9_pagination (db : DB) (page_q limit_q : Option Nat)
    (search_q type_q : Option String) :
    let res := getCustomers db page_q limit_q search_q type_q
    res.customers.length ≤ res.pagination.limit ∧
    (∀ c ∈ res.customers, c.active = 1) ∧
    (limit_q = none → res.pagination.limit = 10) ∧
    (page_q = none → res.pagination.currentPage = 1) ∧
    res.pagination.totalPages = res.pagination.totalCustomers / res.pagination.limit
      + (if res.pagination.totalCustomers % res.pagination.limit = 0 then 0 else 1) ∧
    (res.pagination.hasNext = true ↔
      res.pagination.currentPage < res.pagination.totalPages) ∧
    (res.pagination.hasPrev = true ↔ 1 < res.pagination.currentPage) := by
  intro res
  show res.customers.length ≤ res.pagination.limit ∧ _
  have hres : res = getCustomers db page_q limit_q search_q type_q := rfl
  rw [hres]
  simp only [getCustomers]
  refine ⟨?_, ?_, ?_, ?_, ?_, ?_, ?_⟩
  · rw [List.length_take]
    exact min_le_left _ _
  · intro c hc
    have hc2 := List.mem_of_mem_drop (List.mem_of_mem_take hc)
    have hc3 := List.mem_mergeSort.mp hc2
    have hpred := (List.mem_filter.mp hc3).2
    rw [customerSearchPred, Bool.and_eq_true] at hpred
    simpa using hpred.1
  · intro h
    rw [h]
    rfl
  · intro h
    rw [h]
    rfl
  · exact ceil_div_formula _ _ (orDefault_pos limit_q 10 (by omega))
  · exact decide_eq_true_iff
  · exact decide_eq_true_iff

/-- Database for the C9 witness: one active and one inactive customer. -/
def c9wdb : DB :=
  { languages := [], films := [], actors := [], categories := [], film_actors := []
    film_categories := [], inventory := [], stores := []
    customers := [{ customer_id := 1, store_id := 1, first_name := "MARY"
                    last_name := "SMITH", email := "m@x.com", address_id := 1
                    active := 1, create_date := 0, last_update := 0 },
                  { customer_id := 2, store_id := 1, first_name := "BOB"
                    last_name := "JONES", email := "b@x.com", address_id := 1
                    active := 0, create_date := 0, last_update := 0 }]
    rentals := [] }

/-- C9 witness: with no parameters the limit defaults to 10 and the page
to 1. -/
theorem c9_pagination_witness :
    (getCustomers c9wdb none none none none).pagination.limit = 10 ∧
    (getCustomers c9wdb none none none none).pagination.currentPage = 1 :=
  ⟨(c9_pagination c9wdb none none none none).2.2.1 rfl,
   (c9_pagination c9wdb none none none none).2.2.2.1 rfl⟩

/-! ## Claim C5: genre search -/

/-- Database for the C5 counterexample and witness: an Action film and a
Comedy film, each in its category. -/
def c5wdb : DB :=
  { languages := [{ language_id := 1, name := "English" }]
    films := [{ film_id := 1, title := "ACADEMY DINOSAUR", description := "d"
                release_year := 2006, rating := "PG", rental_rate := 99
                rental_duration := 6, length := 86, replacement_cost := 2099
                special_features := "", language_id := 1 },
              { film_id := 2, title := "ACE GOLDFINGER", description := "d"
                release_year := 2006, rating := "G", rental_rate := 499
                rental_duration := 3, length := 48, replacement_cost := 1299
                special_features := "", language_id := 1 }]
    actors := [], categories := [{ category_id := 1, name := "Action" },
                                 { category_id := 2, name := "Comedy" }]
    film_actors := []
    film_categories := [{ film_id := 1, category_id := 1 }, { film_id := 2, category_id := 2 }]
    inventory := [], stores := [], customers := [], rentals := [] }

/-- C5 fails as stated: the handler binds the raw query into
`LIKE '%q%'`, so the wildcard query `A_tion` matches the category name
`Action` and its film is returned, although no category name contains
`A_tion` as a (case-insensitive) substring. -/
theorem c5_counterexample :
    (∃ n, ({ film_id := 1, title := "ACADEMY DINOSAUR", description := "d"
             release_year := 2006, rating := "PG", rental_rate := 99
             rental_duration := 6, length := 86, replacement_cost := 2099
             special_features := "", language_id := 1 : Film }, n)
        ∈ searchRowsGenre c5wdb "A_tion") ∧
    ¬ ∃ c ∈ c5wdb.categories, occursCI "A_tion" c.name := by
  constructor
  · refine ⟨0, ?_⟩
    simp only [searchRowsGenre]
    exact List.mem_mergeSort.mpr (by decide)
  · rintro ⟨c, hc, hocc⟩
    have hsub := (hasSubCI_iff ("A_tion".data) c.name.data).mpr hocc
    have hc2 : c = { category_id := 1, name := "Action" } ∨
        c = { category_id := 2, name := "Comedy" } := by
      simpa [c5wdb] using hc
    rcases hc2 with rfl | rfl
    · exact absurd hsub (by decide)
    · exact absurd hsub (by decide)

/-- C5 (amended): for every genre search with a present, nonempty query
`q`, the handler answers 200 with the genre query shape, whose result set
contains exactly the films joined via `film_category` to at least one
category whose name matches the pattern `'%' ++ q ++ '%'` under MySQL
`LIKE` (case-insensitive; `%` and `_` wildcards, backslash escape); for a
wildcard- and escape-free query - such as `Action` - that pattern match is
exactly case-insensitive substring containment of `q`. -/
theorem c5_amended (db : DB) (q : String) (hq0 : q ≠ "") :
    searchFilms db (some q) (some "genre") = (200, some (searchRowsGenre db q)) ∧
    (∀ f : Film, (∃ n, (f, n) ∈ searchRowsGenre db q) ↔
      (f ∈ db.films ∧ ∃ fc ∈ db.film_categories, fc.film_id = f.film_id ∧
        ∃ c ∈ db.categories, c.category_id = fc.category_id ∧
          likeStr c.name (likeWrap q) = true)) ∧
    (plainChars q.data = true → ∀ s : String,
      (likeStr s (likeWrap q) = true ↔ occursCI q s)) := by
  refine ⟨?_, ?_, ?_⟩
  · simp only [searchFilms]
    rw [if_neg (by push_neg; exact ⟨hq0, by decide⟩)]
    simp
  · intro f
    constructor
    · rintro ⟨n, hmem⟩
      simp only [searchRowsGenre] at hmem
      have hmem2 := List.mem_mergeSort.mp hmem
      obtain ⟨g, hg, heq⟩ := List.mem_map.mp hmem2
      have hgf : g = f := congrArg Prod.fst heq
      subst hgf
      have hgm := List.mem_dedup.mp hg
      obtain ⟨hfilms, hb⟩ := List.mem_filter.mp hgm
      have hne : genreCatPairs db q g.film_id ≠ [] := by
        intro hnil
        rw [hnil] at hb
        simp at hb
      obtain ⟨⟨fc, c⟩, hpc⟩ := List.exists_mem_of_ne_nil _ hne
      rw [genreCatPairs] at hpc
      obtain ⟨fc2, hfc2, hpc2⟩ := List.mem_flatMap.mp hpc
      obtain ⟨c2, hc2, heq2⟩ := List.mem_map.mp hpc2
      have hfc2e : fc2 = fc := congrArg Prod.fst heq2
      have hc2e : c2 = c := congrArg Prod.snd heq2
      subst hfc2e
      subst hc2e
      obtain ⟨hfc2m, hfc2b⟩ := List.mem_filter.mp hfc2
      obtain ⟨hc2m, hc2b⟩ := List.mem_filter.mp hc2
      rw [Bool.and_eq_true] at hc2b
      exact ⟨hfilms, fc2, hfc2m, by simpa using hfc2b, c2, hc2m,
        by simpa using hc2b.1, hc2b.2⟩
    · rintro ⟨hf, fc, hfc, hfcf, c, hc, hcc, hlike⟩
      have hpair : (fc, c) ∈ genreCatPairs db q f.film_id := by
        rw [genreCatPairs]
        exact List.mem_flatMap.mpr ⟨fc, List.mem_filter.mpr ⟨hfc, by simp [hfcf]⟩,
          List.mem_map.mpr ⟨c, List.mem_filter.mpr ⟨hc, by simp [hcc, hlike]⟩, rfl⟩⟩
      have hms : f ∈ db.films.filter (fun f2 => !(genreCatPairs db q f2.film_id).isEmpty) := by
        refine List.mem_filter.mpr ⟨hf, ?_⟩
        cases hpe : (genreCatPairs db q f.film_id).isEmpty with
        | false => rfl
        | true =>
          exfalso
          rw [List.isEmpty_iff.mp hpe] at hpair
          cases hpair
      have hmem : (f, (db.films.filter (fun f2 => !(genreCatPairs db q f2.film_id).isEmpty)).countP
          (fun g => g == f) * ((genreCatPairs db q f.film_id).length
            * filmRentalTally db f.film_id)) ∈ searchRowsGenre db q := by
        simp only [searchRowsGenre]
        exact List.mem_mergeSort.mpr (List.mem_map.mpr ⟨f, List.mem_dedup.mpr hms, rfl⟩)
      exact ⟨_, hmem⟩
  · intro hq s
    exact likeStr_wrap_iff_occursCI s q hq

/-- C5 witness: searching `type=genre&query=Action` executes the genre
shape with 200, and on the wildcard-free query `Action` the pattern match
coincides with case-insensitive substring containment. -/
theorem c5_amended_witness :
    searchFilms c5wdb (some "Action") (some "genre")
      = (200, some (searchRowsGenre c5wdb "Action")) ∧
    (likeStr "ACTION FILM" (likeWrap "Action") = true ↔ occursCI "Action" "ACTION FILM") :=
  ⟨(c5_amended c5wdb "Action" (by decide)).1,
   (c5_amended c5wdb "Action" (by decide)).2.2 (by decide) "ACTION FILM"⟩

/-! ## Claim C6: GET /api/film/:id aggregates -/

/-- Claim side of C6: the rentals of any inventory copy of film `fid`. -/
def filmRentals (db : DB) (fid : Nat) : List Rental :=
  db.rentals.filter (fun r => db.inventory.any
    (fun i => i.film_id == fid && i.inventory_id == r.inventory_id))

/-- Claim side of C6: the inventory copies of film `fid`. -/
def filmCopies (db : DB) (fid : Nat) : List Inventory :=
  db.inventory.filter (fun i => i.film_id == fid)

/-- Claim side of C6: the open rentals of copies of film `fid`. -/
def filmOpenRentals (db : DB) (fid : Nat) : List Rental :=
  (filmRentals db fid).filter (fun r => r.return_date.isNone)

/-- The rental ids surviving the film query's `COUNT(DISTINCT r.rental_id)`
projection are exactly the ids of rentals of the film's copies. -/
theorem film_rental_ids_iff (db : DB) (fid : Nat) (rid : Nat) :
    (rid ∈ (filmJoinRows db fid).filterMap
        (fun row => row.2.2.2.map (fun r => r.rental_id)) ↔
      rid ∈ (filmRentals db fid).map (fun r => r.rental_id)) := by
  have h1 : (rid ∈ (filmJoinRows db fid).filterMap
      (fun row => row.2.2.2.map (fun r => r.rental_id)) ↔
      rid ∈ ((filmActorOpts db fid).product (filmInvRentOpts db fid)).filterMap
        (fun p => p.2.2.map (fun r => r.rental_id))) :=
    product_filterMap_snd leftChain_ne_nil
      (fun (p : (Option FilmActor × Option Actor) × (Option Inventory × Option Rental)) =>
        p.2.2.map (fun r => r.rental_id)) rid
  have h2 : (rid ∈ ((filmActorOpts db fid).product (filmInvRentOpts db fid)).filterMap
      (fun p => p.2.2.map (fun r => r.rental_id)) ↔
      rid ∈ (filmInvRentOpts db fid).filterMap
        (fun p => p.2.map (fun r => r.rental_id))) :=
    product_filterMap_snd leftChain_ne_nil
      (fun (p : Option Inventory × Option Rental) =>
        p.2.map (fun r => r.rental_id)) rid
  have h3 : (rid ∈ (filmInvRentOpts db fid).filterMap
      (fun p => p.2.map (fun r => r.rental_id)) ↔
      ∃ i ∈ db.inventory.filter (fun i => i.film_id == fid),
        ∃ r ∈ db.rentals.filter (fun r2 => r2.inventory_id == i.inventory_id),
          (some r).map (fun r2 => r2.rental_id) = some rid) :=
    leftChain_filterMap_snd
      (fun (o : Option Rental) => o.map (fun r => r.rental_id)) rfl rid
  rw [h1, h2, h3]
  constructor
  · rintro ⟨i, hi2, r, hr2, hc⟩
    obtain ⟨him, hib⟩ := List.mem_filter.mp hi2
    obtain ⟨hrm, hrb⟩ := List.mem_filter.mp hr2
    have h5 : i.film_id = fid := by simpa using hib
    have h6 : r.inventory_id = i.inventory_id := by simpa using hrb
    have hrid : r.rental_id = rid := by simpa using hc
    refine List.mem_map.mpr ⟨r, ?_, hrid⟩
    rw [filmRentals]
    refine List.mem_filter.mpr ⟨hrm, ?_⟩
    rw [List.any_eq_true]
    exact ⟨i, him, by simp [h5, h6]⟩
  · intro hmem
    obtain ⟨r, hrF, hrid⟩ := List.mem_map.mp hmem
    rw [filmRentals] at hrF
    obtain ⟨hrm, hrb⟩ := List.mem_filter.mp hrF
    rw [List.any_eq_true] at hrb
    obtain ⟨i, him, hib⟩ := hrb
    rw [Bool.and_eq_true] at hib
    have h5 : i.film_id = fid := by simpa using hib.1
    have h6 : i.inventory_id = r.inventory_id := by simpa using hib.2
    exact ⟨i, List.mem_filter.mpr ⟨him, by simp [h5]⟩,
      r, List.mem_filter.mpr ⟨hrm, by simp [h6]⟩, by simp [hrid]⟩

/-- The inventory ids surviving the `COUNT(DISTINCT i.inventory_id)`
projection are exactly the ids of the film's copies. -/
theorem film_copy_ids_iff (db : DB) (fid : Nat) (iid : Nat) :
    (iid ∈ (filmJoinRows db fid).filterMap
        (fun row => row.2.2.1.map (fun i => i.inventory_id)) ↔
      iid ∈ (filmCopies db fid).map (fun i => i.inventory_id)) := by
  have h1 : (iid ∈ (filmJoinRows db fid).filterMap
      (fun row => row.2.2.1.map (fun i => i.inventory_id)) ↔
      iid ∈ ((filmActorOpts db fid).product (filmInvRentOpts db fid)).filterMap
        (fun p => p.2.1.map (fun i => i.inventory_id))) :=
    product_filterMap_snd leftChain_ne_nil
      (fun (p : (Option FilmActor × Option Actor) × (Option Inventory × Option Rental)) =>
        p.2.1.map (fun i => i.inventory_id)) iid
  have h2 : (iid ∈ ((filmActorOpts db fid).product (filmInvRentOpts db fid)).filterMap
      (fun p => p.2.1.map (fun i => i.inventory_id)) ↔
      iid ∈ (filmInvRentOpts db fid).filterMap
        (fun p => p.1.map (fun i => i.inventory_id))) :=
    product_filterMap_snd leftChain_ne_nil
      (fun (p : Option Inventory × Option Rental) =>
        p.1.map (fun i => i.inventory_id)) iid
  have h3 : (iid ∈ (filmInvRentOpts db fid).filterMap
      (fun p => p.1.map (fun i => i.inventory_id)) ↔
      ∃ i ∈ db.inventory.filter (fun i => i.film_id == fid),
        (some i).map (fun i2 => i2.inventory_id) = some iid) :=
    leftChain_filterMap_fst
      (fun (o : Option Inventory) => o.map (fun i => i.inventory_id)) rfl iid
  rw [h1, h2, h3]
  constructor
  · rintro ⟨i, hi2, hc⟩
    exact List.mem_map.mpr ⟨i, hi2, by simpa using hc⟩
  · intro hmem
    obtain ⟨i, hi2, hiid⟩ := List.mem_map.mp hmem
    exact ⟨i, hi2, by simp [hiid]⟩

/-- The rental ids surviving the `currently_rented` projection (`CASE WHEN
return_date IS NULL THEN rental_id END`) are exactly the ids of open
rentals of the film's copies. -/
theorem film_open_ids_iff (db : DB) (fid : Nat) (rid : Nat) :
    (rid ∈ (filmJoinRows db fid).filterMap (fun row => row.2.2.2.bind
        (fun r => if r.return_date.isNone then some r.rental_id else none)) ↔
      rid ∈ (filmOpenRentals db fid).map (fun r => r.rental_id)) := by
  have h1 : (rid ∈ (filmJoinRows db fid).filterMap (fun row => row.2.2.2.bind
      (fun r => if r.return_date.isNone then some r.rental_id else none)) ↔
      rid ∈ ((filmActorOpts db fid).product (filmInvRentOpts db fid)).filterMap
        (fun p => p.2.2.bind
          (fun r => if r.return_date.isNone then some r.rental_id else none))) :=
    product_filterMap_snd leftChain_ne_nil
      (fun (p : (Option FilmActor × Option Actor) × (Option Inventory × Option Rental)) =>
        p.2.2.bind
          (fun r => if r.return_date.isNone then some r.rental_id else none)) rid
  have h2 : (rid ∈ ((filmActorOpts db fid).product (filmInvRentOpts db fid)).filterMap
      (fun p => p.2.2.bind
        (fun r => if r.return_date.isNone then some r.rental_id else none)) ↔
      rid ∈ (filmInvRentOpts db fid).filterMap
        (fun p => p.2.bind
          (fun r => if r.return_date.isNone then some r.rental_id else none))) :=
    product_filterMap_snd leftChain_ne_nil
      (fun (p : Option Inventory × Option Rental) =>
        p.2.bind
          (fun r => if r.return_date.isNone then some r.rental_id else none)) rid
  have h3 : (rid ∈ (filmInvRentOpts db fid).filterMap
      (fun p => p.2.bind
        (fun r => if r.return_date.isNone then some r.rental_id else none)) ↔
      ∃ i ∈ db.inventory.filter (fun i => i.film_id == fid),
        ∃ r ∈ db.rentals.filter (fun r2 => r2.inventory_id == i.inventory_id),
          (some r).bind
            (fun r2 => if r2.return_date.isNone then some r2.rental_id else none)
            = some rid) :=
    leftChain_filterMap_snd
      (fun (o : Option Rental) => o.bind
        (fun r => if r.return_date.isNone then some r.rental_id else none)) rfl rid
  rw [h1, h2, h3]
  constructor
  · rintro ⟨i, hi2, r, hr2, hc⟩
    obtain ⟨him, hib⟩ := List.mem_filter.mp hi2
    obtain ⟨hrm, hrb⟩ := List.mem_filter.mp hr2
    have h5 : i.film_id = fid := by simpa using hib
    have h6 : r.inventory_id = i.inventory_id := by simpa using hrb
    have hc2 : (if r.return_date.isNone then some r.rental_id else none)
        = some rid := hc
    by_cases hopen : r.return_date.isNone = true
    · rw [if_pos hopen] at hc2
      have hrid : r.rental_id = rid := by simpa using hc2
      refine List.mem_map.mpr ⟨r, ?_, hrid⟩
      rw [filmOpenRentals]
      refine List.mem_filter.mpr ⟨?_, hopen⟩
      rw [filmRentals]
      refine List.mem_filter.mpr ⟨hrm, ?_⟩
      rw [List.any_eq_true]
      exact ⟨i, him, by simp [h5, h6]⟩
    · rw [if_neg hopen] at hc2
      cases hc2
  · intro hmem
    obtain ⟨r, hrF, hrid⟩ := List.mem_map.mp hmem
    rw [filmOpenRentals] at hrF
    obtain ⟨hrF2, hopen⟩ := List.mem_filter.mp hrF
    rw [filmRentals] at hrF2
    obtain ⟨hrm, hrb⟩ := List.mem_filter.mp hrF2
    rw [List.any_eq_true] at hrb
    obtain ⟨i, him, hib⟩ := hrb
    rw [Bool.and_eq_true] at hib
    have h5 : i.film_id = fid := by simpa using hib.1
    have h6 : i.inventory_id = r.inventory_id := by simpa using hib.2
    refine ⟨i, List.mem_filter.mpr ⟨him, by simp [h5]⟩,
      r, List.mem_filter.mpr ⟨hrm, by simp [h6]⟩, ?_⟩
    show (if r.return_date.isNone then some r.rental_id else none) = some rid
    rw [if_pos hopen, hrid]

/-- C6: for a valid film id (and key-unique rental and inventory ids),
`GET /api/film/:id` answers 200 with `rental_count` the number of distinct
rentals of any copy of the film, `total_copies` the number of its
inventory rows, and `currently_rented` the number of its distinct open
rentals. -/
theorem c6_film_aggregates (db : DB) (fid : Nat)
    (hr : (db.rentals.map (fun r => r.rental_id)).Nodup)
    (hi : (db.inventory.map (fun i => i.inventory_id)).Nodup)
    (f0 : Film) (hf0 : f0 ∈ db.films) (hfid : f0.film_id = fid) :
    ∃ d : FilmDetails, getFilm db fid = (200, some d) ∧
      d.rental_count = (filmRentals db fid).length ∧
      d.total_copies = (filmCopies db fid).length ∧
      d.currently_rented = (filmOpenRentals db fid).length := by
  have hsome : (db.films.find? (fun f => f.film_id == fid)).isSome = true :=
    List.find?_isSome.mpr ⟨f0, hf0, by simp [hfid]⟩
  obtain ⟨f, hfind⟩ := Option.isSome_iff_exists.mp hsome
  have hrent : distinctCount ((filmJoinRows db fid).filterMap
      (fun row => row.2.2.2.map (fun r => r.rental_id)))
      = (filmRentals db fid).length := by
    have hnodup : ((filmRentals db fid).map (fun r => r.rental_id)).Nodup :=
      List.Nodup.sublist
        (List.Sublist.map (fun r => r.rental_id) (List.filter_sublist db.rentals)) hr
    rw [distinctCount, dedup_length_eq_of_mem_iff (film_rental_ids_iff db fid),
      List.dedup_eq_self.mpr hnodup, List.length_map]
  have hcop : distinctCount ((filmJoinRows db fid).filterMap
      (fun row => row.2.2.1.map (fun i => i.inventory_id)))
      = (filmCopies db fid).length := by
    have hnodup : ((filmCopies db fid).map (fun i => i.inventory_id)).Nodup :=
      List.Nodup.sublist
        (List.Sublist.map (fun i => i.inventory_id) (List.filter_sublist db.inventory)) hi
    rw [distinctCount, dedup_length_eq_of_mem_iff (film_copy_ids_iff db fid),
      List.dedup_eq_self.mpr hnodup, List.length_map]
  have hopen : distinctCount ((filmJoinRows db fid).filterMap
      (fun row => row.2.2.2.bind
        (fun r => if r.return_date.isNone then some r.rental_id else none)))
      = (filmOpenRentals db fid).length := by
    have hsub : (filmOpenRentals db fid).Sublist db.rentals :=
      List.Sublist.trans (List.filter_sublist (filmRentals db fid))
        (List.filter_sublist db.rentals)
    have hnodup : ((filmOpenRentals db fid).map (fun r => r.rental_id)).Nodup :=
      List.Nodup.sublist (List.Sublist.map (fun r => r.rental_id) hsub) hr
    rw [distinctCount, dedup_length_eq_of_mem_iff (film_open_ids_iff db fid),
      List.dedup_eq_self.mpr hnodup, List.length_map]
  refine ⟨{ film := f
            language := (db.languages.find? (fun l => l.language_id == f.language_id)).map
              (fun l => l.name)
            categories := ((filmJoinRows db fid).filterMap
                (fun row => row.1.2.map (fun c => c.name))).dedup.mergeSort
              (fun a b => decide (a ≤ b))
            actors := ((((filmJoinRows db fid).filterMap
                (fun row => row.2.1.2)).dedup.mergeSort
                  (fun a b => decide (a.last_name ≤ b.last_name))).map
                (fun a => a.first_name ++ " " ++ a.last_name)).dedup
            rental_count := distinctCount ((filmJoinRows db fid).filterMap
              (fun row => row.2.2.2.map (fun r => r.rental_id)))
            total_copies := distinctCount ((filmJoinRows db fid).filterMap
              (fun row => row.2.2.1.map (fun i => i.inventory_id)))
            currently_rented := distinctCount ((filmJoinRows db fid).filterMap
              (fun row => row.2.2.2.bind
                (fun r => if r.return_date.isNone then some r.rental_id else none))) },
    ?_, hrent, hcop, hopen⟩
  simp only [getFilm, hfind]

/-- Database for the C6 witness: one film with two copies, one open and
one returned rental. -/
def c6wdb : DB :=
  { languages := [{ language_id := 1, name := "English" }]
    films := [{ film_id := 1, title := "ACADEMY DINOSAUR", description := "d"
                release_year := 2006, rating := "PG", rental_rate := 99
                rental_duration := 6, length := 86, replacement_cost := 2099
                special_features := "", language_id := 1 }]
    actors := [{ actor_id := 1, first_name := "PENELOPE", last_name := "GUINESS" }]
    categories := [{ category_id := 1, name := "Action" }]
    film_actors := [{ actor_id := 1, film_id := 1 }]
    film_categories := [{ film_id := 1, category_id := 1 }]
    inventory := [{ inventory_id := 1, film_id := 1, store_id := 1 },
                  { inventory_id := 2, film_id := 1, store_id := 1 }]
    stores := [{ store_id := 1, manager_staff_id := 1 }]
    customers := [{ customer_id := 1, store_id := 1, first_name := "MARY"
                    last_name := "SMITH", email := "m@x.com", address_id := 1
                    active := 1, create_date := 0, last_update := 0 }]
    rentals := [{ rental_id := 1, rental_date := 0, inventory_id := 1, customer_id := 1
                  staff_id := 1, return_date := none, last_update := 0 },
                { rental_id := 2, rental_date := 0, inventory_id := 2, customer_id := 1
                  staff_id := 1, return_date := some 5, last_update := 5 }] }

/-- C6 witness: on the witness database the film-details aggregates agree
with the underlying rental and inventory rows. -/
theorem c6_film_aggregates_witness :
    ∃ d : FilmDetails, getFilm c6wdb 1 = (200, some d) ∧
      d.rental_count = (filmRentals c6wdb 1).length ∧
      d.total_copies = (filmCopies c6wdb 1).length ∧
      d.currently_rented = (filmOpenRentals c6wdb 1).length :=
  c6_film_aggregates c6wdb 1 (by decide) (by decide)
    { film_id := 1, title := "ACADEMY DINOSAUR", description := "d"
      release_year := 2006, rating := "PG", rental_rate := 99
      rental_duration := 6, length := 86, replacement_cost := 2099
      special_features := "", language_id := 1 }
    (by decide) rfl
